import Mathlib

/-!
# Verification of the Record Store layer of the CST1510 intelligence platform

Shallow embedding of the generic CRUD engine in `Database.db/database.py`
(class `DatabaseManager`), the domain convenience views of
`Database.db/CRUD_operations.py`, and the user-migration routine of
`Database.db/user_service.py`.

Modelling conventions:
* SQLite values are modelled by `Val` (integers, text, NULL).  REAL values and
  timestamps do not occur in any verified claim; timestamp defaults are
  modelled by an opaque text marker.
* A table carries its ordered column list, its NOT NULL / CHECK / UNIQUE
  constraints, its autoincrement counter and its rows (each row a list of
  values aligned with the column list), exactly the shape produced by
  `create_tables`.
* Each Python method that builds a SQL string with an f-string is embedded as
  a function that builds the *same* text (`Query.sql`) together with a
  structured description of its meaning (`Query.act`); `execute_query`
  dispatches on the text exactly as the Python does
  (`query.strip().upper().startswith('SELECT')`) and on the semantics of the
  statement (`runAct`), returning the fetched rows / `None` / rolled-back
  state accordingly.
* Python string operations (`strip`, `upper`, `startswith`, `isalnum`,
  `replace('_','')`, `split`) are modelled at the ASCII character level.
-/

namespace IntelPlatform

/-- A SQLite storage value: INTEGER, TEXT or NULL. -/
inductive Val where
  | intV (i : Int)
  | strV (s : String)
  | nullV
deriving DecidableEq, Repr

/-- One table of the store: ordered schema columns, declared constraints,
autoincrement counter and current rows (each aligned with `cols`). -/
structure Table where
  cols     : List String
  notnull  : List String
  checks   : List (String × List String)
  uniques  : List String
  defaults : List (String × Val)
  nextId   : Int
  rows     : List (List Val)
deriving DecidableEq, Repr

/-- The whole store: association of table names to tables. -/
abbrev DB := List (String × Table)

/-! ## Python string primitives, modelled on ASCII character lists -/

/-- Whitespace as recognised by Python `str.strip()` (ASCII fragment). -/
def pyIsWs (c : Char) : Bool := c = ' ' || c = '\n' || c = '\t' || c = '\r'

/-- Left strip. -/
def lstripL (l : List Char) : List Char := l.dropWhile pyIsWs

/-- Right strip. -/
def rstripL (l : List Char) : List Char := (l.reverse.dropWhile pyIsWs).reverse

/-- Python `str.strip()`. -/
def pyStripL (l : List Char) : List Char := rstripL (lstripL l)

/-- Python `str.upper()` (ASCII fragment). -/
def pyUpperL (l : List Char) : List Char := l.map Char.toUpper

/-- Prefix test on character lists (Python `str.startswith`). -/
def isPrefixL : List Char → List Char → Bool
  | [], _ => true
  | _ :: _, [] => false
  | a :: as, b :: bs => a = b && isPrefixL as bs

/-- Substring containment on character lists (used for `LIKE '%v%'`). -/
def infixIn (needle : List Char) : List Char → Bool
  | [] => isPrefixL needle []
  | c :: rest => isPrefixL needle (c :: rest) || infixIn needle rest

/-- The dispatch `query.strip().upper().startswith('SELECT')` of
`DatabaseManager.execute_query`. -/
def pyStartswithSelect (s : String) : Bool :=
  isPrefixL "SELECT".data (pyUpperL (pyStripL s.data))

/-- Python `str.isalnum()` on a character list (ASCII fragment): non-empty and
every character alphanumeric. -/
def pyIsAlnum (l : List Char) : Bool := !l.isEmpty && l.all Char.isAlphanum

/-- The identifier whitelist `name.replace('_','').isalnum()` used to sanitise
every caller-supplied table name (and the column names of `search_records`,
`record_exists` and `get_cyber_incidents`). -/
def validIdent (s : String) : Bool := pyIsAlnum (s.data.filter (fun c => c ≠ '_'))

/-- Python `str.strip()` on a `String`. -/
def pyStrip (s : String) : String := ⟨pyStripL s.data⟩

/-- Helper for `pySplitComma`: left-to-right split with an accumulator. -/
def splitCommaAux : List Char → List Char → List String
  | acc, [] => [⟨acc.reverse⟩]
  | acc, c :: rest =>
      if c = ',' then ⟨acc.reverse⟩ :: splitCommaAux [] rest
      else splitCommaAux (c :: acc) rest

/-- Python `str.split(',')`: at least one field, empty fields kept. -/
def pySplitComma (s : String) : List String := splitCommaAux [] s.data

/-- Python `str.startswith('#')`. -/
def pyStartsWithHash (s : String) : Bool := isPrefixL "#".data s.data

/-! ## Row and constraint semantics -/

/-- Value of column `c` in a row aligned with `cols` (first matching column,
as in SQL name resolution). -/
def rowVal : List String → List Val → String → Option Val
  | c :: cs, v :: vs, t => if c = t then some v else rowVal cs vs t
  | _, _, _ => none

/-- Apply a `SET col = ?` assignment list to a row aligned with `cols`:
assigned columns take the new value, all other positions keep the old one. -/
def applyFields (fields : List (String × Val)) : List String → List Val → List Val
  | c :: cs, v :: vs =>
      (match fields.lookup c with
       | some w => w
       | none => v) :: applyFields fields cs vs
  | _, _ => []

/-- The row an `INSERT INTO t (cols...) VALUES (?...)` produces: named columns
take the bound parameter, `id` takes the autoincrement counter, the rest take
their schema default (NULL when none is declared). -/
def buildRow (tbl : Table) (fields : List (String × Val)) : List Val :=
  tbl.cols.map (fun c =>
    match fields.lookup c with
    | some v => v
    | none => if c = "id" then Val.intV tbl.nextId else (tbl.defaults.lookup c).getD Val.nullV)

/-- NOT NULL and CHECK(... IN (...)) constraints on one row.  A NULL value
passes a CHECK constraint, as in SQLite. -/
def rowOk (tbl : Table) (row : List Val) : Bool :=
  tbl.notnull.all (fun c =>
    match rowVal tbl.cols row c with
    | some Val.nullV => false
    | _ => true)
  && tbl.checks.all (fun ck =>
    match rowVal tbl.cols row ck.1 with
    | some (Val.strV s) => ck.2.contains s
    | some Val.nullV => true
    | some (Val.intV _) => false
    | none => true)

/-- Pairwise distinctness of a value list. -/
def distinctVals : List Val → Bool
  | [] => true
  | v :: rest => !(rest.contains v) && distinctVals rest

/-- The non-NULL values stored in column `c`. -/
def colVals (cols : List String) (rows : List (List Val)) (c : String) : List Val :=
  rows.filterMap (fun r =>
    match rowVal cols r c with
    | some Val.nullV => none
    | some v => some v
    | none => none)

/-- UNIQUE constraints over a row set (NULLs exempt, as in SQLite). -/
def uniquesOk (tbl : Table) (rows : List (List Val)) : Bool :=
  tbl.uniques.all (fun c => distinctVals (colVals tbl.cols rows c))

/-- All row-level and UNIQUE constraints over a candidate row set. -/
def tableOkRows (tbl : Table) (rows : List (List Val)) : Bool :=
  rows.all (rowOk tbl) && uniquesOk tbl rows

/-- Replace the table named `t`. -/
def replaceTable (db : DB) (t : String) (tbl : Table) : DB :=
  db.map (fun p => if p.1 = t then (t, tbl) else p)

/-! ## Statement semantics -/

/-- Descending comparison key order used by `ORDER BY col DESC`
(SQLite storage-class order: NULL < INTEGER < TEXT). -/
def valLe : Val → Val → Bool
  | Val.nullV, _ => true
  | _, Val.nullV => false
  | Val.intV a, Val.intV b => a ≤ b
  | Val.intV _, Val.strV _ => true
  | Val.strV _, Val.intV _ => false
  | Val.strV a, Val.strV b => (compare a b).isLE

/-- Insert into a descending-sorted row list. -/
def insertDesc (key : List Val → Val) (r : List Val) : List (List Val) → List (List Val)
  | [] => [r]
  | x :: xs => if valLe (key x) (key r) then r :: x :: xs else x :: insertDesc key r xs

/-- Descending sort by key. -/
def sortDesc (key : List Val → Val) : List (List Val) → List (List Val)
  | [] => []
  | x :: xs => insertDesc key x (sortDesc key xs)

/-- The rows `PRAGMA table_info(t)` produces; only the first two of its six
columns (`cid`, `name`) are modelled, `name` being the only one the code
reads (`column[1]`). -/
def pragmaRows (cols : List String) : List (List Val) :=
  ((List.range cols.length).zip cols).map (fun p => [Val.intV p.1, Val.strV p.2])

/-- The statements the Record Store builds, with their bound parameters. -/
inductive Act where
  | selAll (t : String)
  | selLimit (t : String) (lim off : Int)
  | selById (t : String) (i : Int)
  | selIdWhereEq (t c : String) (v : Val)
  | selOneWhereEq (t c : String) (v : Val)
  | selLike (t c : String) (sub : String)
  | selFilter (t : String) (eqs : List (String × Val)) (ord : String)
  | insertInto (t : String) (fields : List (String × Val))
  | updateSet (t : String) (fields : List (String × Val)) (i : Int)
  | deleteFrom (t : String) (i : Int)
  | pragmaInfo (t : String)
deriving DecidableEq, Repr

/-- SQLite-level semantics of one statement: `.error ()` models a raised
`sqlite3.Error` (unknown table or column, constraint violation), `.ok`
returns the possibly-updated store and the produced result rows. -/
def runAct : Act → DB → Except Unit (DB × List (List Val))
  | Act.selAll t, db =>
      match db.lookup t with
      | none => Except.error ()
      | some tbl => Except.ok (db, tbl.rows)
  | Act.selLimit t lim off, db =>
      match db.lookup t with
      | none => Except.error ()
      | some tbl =>
          let dropped := tbl.rows.drop off.toNat
          Except.ok (db, if lim < 0 then dropped else dropped.take lim.toNat)
  | Act.selById t i, db =>
      match db.lookup t with
      | none => Except.error ()
      | some tbl =>
          if tbl.cols.contains "id" then
            Except.ok (db, tbl.rows.filter (fun r => rowVal tbl.cols r "id" == some (Val.intV i)))
          else Except.error ()
  | Act.selIdWhereEq t c v, db =>
      match db.lookup t with
      | none => Except.error ()
      | some tbl =>
          if tbl.cols.contains c && tbl.cols.contains "id" then
            Except.ok (db, (tbl.rows.filter (fun r => rowVal tbl.cols r c == some v)).map
              (fun r => [(rowVal tbl.cols r "id").getD Val.nullV]))
          else Except.error ()
  | Act.selOneWhereEq t c v, db =>
      match db.lookup t with
      | none => Except.error ()
      | some tbl =>
          if tbl.cols.contains c then
            Except.ok (db, ((tbl.rows.filter (fun r => rowVal tbl.cols r c == some v)).take 1).map
              (fun _ => [Val.intV 1]))
          else Except.error ()
  | Act.selLike t c sub, db =>
      match db.lookup t with
      | none => Except.error ()
      | some tbl =>
          if tbl.cols.contains c then
            Except.ok (db, tbl.rows.filter (fun r =>
              match rowVal tbl.cols r c with
              | some (Val.strV s) => infixIn sub.data s.data
              | _ => false))
          else Except.error ()
  | Act.selFilter t eqs ord, db =>
      match db.lookup t with
      | none => Except.error ()
      | some tbl =>
          if eqs.all (fun kv => tbl.cols.contains kv.1) && tbl.cols.contains ord then
            Except.ok (db, sortDesc (fun r => (rowVal tbl.cols r ord).getD Val.nullV)
              (tbl.rows.filter (fun r => eqs.all (fun kv => rowVal tbl.cols r kv.1 == some kv.2))))
          else Except.error ()
  | Act.insertInto t fields, db =>
      match db.lookup t with
      | none => Except.error ()
      | some tbl =>
          if fields.all (fun kv => tbl.cols.contains kv.1) then
            let newRows := tbl.rows ++ [buildRow tbl fields]
            if tableOkRows tbl newRows then
              Except.ok (replaceTable db t { tbl with nextId := tbl.nextId + 1, rows := newRows }, [])
            else Except.error ()
          else Except.error ()
  | Act.updateSet t fields i, db =>
      match db.lookup t with
      | none => Except.error ()
      | some tbl =>
          if fields.all (fun kv => tbl.cols.contains kv.1) && tbl.cols.contains "id" then
            let newRows := tbl.rows.map (fun r =>
              if rowVal tbl.cols r "id" == some (Val.intV i) then applyFields fields tbl.cols r else r)
            if tableOkRows tbl newRows then
              Except.ok (replaceTable db t { tbl with rows := newRows }, [])
            else Except.error ()
          else Except.error ()
  | Act.deleteFrom t i, db =>
      match db.lookup t with
      | none => Except.error ()
      | some tbl =>
          if tbl.cols.contains "id" then
            Except.ok (replaceTable db t
              { tbl with rows := tbl.rows.filter (fun r => !(rowVal tbl.cols r "id" == some (Val.intV i))) }, [])
          else Except.error ()
  | Act.pragmaInfo t, db =>
      match db.lookup t with
      | none => Except.ok (db, [])
      | some tbl => Except.ok (db, pragmaRows tbl.cols)

/-- A statement as passed to `execute_query`: the SQL text the Python code
built (values always bound positionally, never in the text) together with its
structured meaning. -/
structure Query where
  sql : String
  act : Act
deriving Repr

/-- `DatabaseManager.execute_query`: runs one parameterized statement; if the
text starts (case-insensitively, after strip) with `SELECT` the fetched rows
are returned; otherwise the change is committed and `None` returned; on any
`sqlite3.Error` the transaction is rolled back (the pre-call store is kept)
and `None` returned — no exception escapes. -/
def execute_query (db : DB) (q : Query) : DB × Option (List (List Val)) :=
  match runAct q.act db with
  | Except.error _ => (db, none)
  | Except.ok (db2, rows) =>
      if pyStartswithSelect q.sql then (db2, some rows) else (db2, none)

/-! ## Public operations of the Record Store -/

/-- Result of one public operation: the store afterwards, the Python return
value, and the SQL texts that were handed to `execute_query` (hence to
`cursor.execute`), in order. -/
structure Eff (α : Type) where
  db : DB
  ret : α
  sqls : List String
deriving Repr

/-- `', '.join(...)`. -/
def joinComma (l : List String) : String := String.intercalate ", " l

/-- `' AND '.join(...)`. -/
def joinAnd (l : List String) : String := String.intercalate " AND " l

/-- `DatabaseManager.get_all_records`. -/
def get_all_records (db : DB) (table_name : String) : Eff (List (List Val)) :=
  if !validIdent table_name then ⟨db, [], []⟩
  else
    let query := "SELECT * FROM " ++ table_name
    let r := execute_query db ⟨query, Act.selAll table_name⟩
    ⟨r.1, r.2.getD [], [query]⟩

/-- `DatabaseManager.get_records_with_limit`. -/
def get_records_with_limit (db : DB) (table_name : String) (lim off : Int) :
    Eff (List (List Val)) :=
  if !validIdent table_name then ⟨db, [], []⟩
  else
    let query := "SELECT * FROM " ++ table_name ++ " LIMIT ? OFFSET ?"
    let r := execute_query db ⟨query, Act.selLimit table_name lim off⟩
    ⟨r.1, r.2.getD [], [query]⟩

/-- `DatabaseManager.insert_record`.  Note the Python returns
`result is None`, `execute_query` returning `None` for every non-SELECT
statement, committed or rolled back. -/
def insert_record (db : DB) (table_name : String) (data : List (String × Val)) : Eff Bool :=
  if data.isEmpty then ⟨db, false, []⟩
  else if !validIdent table_name then ⟨db, false, []⟩
  else
    let data2 := data.filter (fun kv => !(kv.2 == Val.nullV))
    if data2.isEmpty then ⟨db, false, []⟩
    else
      let columns := joinComma (data2.map (fun kv => kv.1))
      let placeholders := joinComma (data2.map (fun _ => "?"))
      let query := "INSERT INTO " ++ table_name ++ " (" ++ columns ++ ") VALUES (" ++ placeholders ++ ")"
      let r := execute_query db ⟨query, Act.insertInto table_name data2⟩
      ⟨r.1, r.2.isNone, [query]⟩

/-- `DatabaseManager.update_record`. -/
def update_record (db : DB) (table_name : String) (record_id : Int)
    (data : List (String × Val)) : Eff Bool :=
  if data.isEmpty then ⟨db, false, []⟩
  else if !validIdent table_name then ⟨db, false, []⟩
  else
    let data2 := data.filter (fun kv => !(kv.2 == Val.nullV))
    if data2.isEmpty then ⟨db, false, []⟩
    else
      let set_clause := joinComma (data2.map (fun kv => kv.1 ++ " = ?"))
      let query := "UPDATE " ++ table_name ++ " SET " ++ set_clause ++ " WHERE id = ?"
      let r := execute_query db ⟨query, Act.updateSet table_name data2 record_id⟩
      ⟨r.1, r.2.isNone, [query]⟩

/-- `DatabaseManager.delete_record`. -/
def delete_record (db : DB) (table_name : String) (record_id : Int) : Eff Bool :=
  if !validIdent table_name then ⟨db, false, []⟩
  else
    let query := "DELETE FROM " ++ table_name ++ " WHERE id = ?"
    let r := execute_query db ⟨query, Act.deleteFrom table_name record_id⟩
    ⟨r.1, r.2.isNone, [query]⟩

/-- `DatabaseManager.get_record_by_id`. -/
def get_record_by_id (db : DB) (table_name : String) (record_id : Int) :
    Eff (Option (List Val)) :=
  if !validIdent table_name then ⟨db, none, []⟩
  else
    let query := "SELECT * FROM " ++ table_name ++ " WHERE id = ?"
    let r := execute_query db ⟨query, Act.selById table_name record_id⟩
    ⟨r.1, (r.2.getD []).head?, [query]⟩

/-- `DatabaseManager.search_records`. -/
def search_records (db : DB) (table_name search_column search_value : String) :
    Eff (List (List Val)) :=
  if !validIdent table_name then ⟨db, [], []⟩
  else if !validIdent search_column then ⟨db, [], []⟩
  else
    let query := "SELECT * FROM " ++ table_name ++ " WHERE " ++ search_column ++ " LIKE ?"
    let r := execute_query db ⟨query, Act.selLike table_name search_column search_value⟩
    ⟨r.1, r.2.getD [], [query]⟩

/-- `DatabaseManager.get_cyber_incidents`: each filter key is sanitised with
the identifier whitelist, invalid keys being dropped from the WHERE clause. -/
def get_cyber_incidents (db : DB) (filters : Option (List (String × Val))) :
    Eff (List (List Val)) :=
  let vf := (filters.getD []).filter (fun kv => validIdent kv.1)
  let base :=
    if vf.isEmpty then "SELECT * FROM cyber_incidents"
    else "SELECT * FROM cyber_incidents" ++ " WHERE " ++ joinAnd (vf.map (fun kv => kv.1 ++ " = ?"))
  let query := base ++ " ORDER BY date_reported DESC"
  let r := execute_query db ⟨query, Act.selFilter "cyber_incidents" vf "date_reported"⟩
  ⟨r.1, r.2.getD [], [query]⟩

/-- `DatabaseManager.get_table_columns`.  The code hands
`PRAGMA table_info(t)` to `execute_query` and maps `column[1]` over the
result when it is truthy. -/
def get_table_columns (db : DB) (table_name : String) : Eff (List String) :=
  if !validIdent table_name then ⟨db, [], []⟩
  else
    let query := "PRAGMA table_info(" ++ table_name ++ ")"
    let r := execute_query db ⟨query, Act.pragmaInfo table_name⟩
    ⟨r.1,
     match r.2 with
     | some (row :: rows) => (row :: rows).map (fun row =>
         match row.getD 1 Val.nullV with
         | Val.strV s => s
         | _ => "")
     | _ => [],
     [query]⟩

/-- `DatabaseManager.record_exists`. -/
def record_exists (db : DB) (table_name column : String) (v : Val) : Eff Bool :=
  if !validIdent table_name then ⟨db, false, []⟩
  else if !validIdent column then ⟨db, false, []⟩
  else
    let query := "SELECT 1 FROM " ++ table_name ++ " WHERE " ++ column ++ " = ? LIMIT 1"
    let r := execute_query db ⟨query, Act.selOneWhereEq table_name column v⟩
    ⟨r.1, !(r.2.getD []).isEmpty, [query]⟩

/-- `get_datasets` of `CRUD_operations.py`: filter keys are interpolated into
the WHERE clause with no identifier validation. -/
def get_datasets (db : DB) (filters : Option (List (String × Val))) :
    Eff (List (List Val)) :=
  let fl := filters.getD []
  let base :=
    if fl.isEmpty then "SELECT * FROM datasets_metadata"
    else "SELECT * FROM datasets_metadata" ++ " WHERE " ++ joinAnd (fl.map (fun kv => kv.1 ++ " = ?"))
  let query := base ++ " ORDER BY upload_date DESC"
  let r := execute_query db ⟨query, Act.selFilter "datasets_metadata" fl "upload_date"⟩
  ⟨r.1, r.2.getD [], [query]⟩

/-- `get_it_tickets` of `CRUD_operations.py`: filter keys are interpolated
into the WHERE clause with no identifier validation. -/
def get_it_tickets (db : DB) (filters : Option (List (String × Val))) :
    Eff (List (List Val)) :=
  let fl := filters.getD []
  let base :=
    if fl.isEmpty then "SELECT * FROM it_tickets"
    else "SELECT * FROM it_tickets" ++ " WHERE " ++ joinAnd (fl.map (fun kv => kv.1 ++ " = ?"))
  let query := base ++ " ORDER BY date_created DESC"
  let r := execute_query db ⟨query, Act.selFilter "it_tickets" fl "date_created"⟩
  ⟨r.1, r.2.getD [], [query]⟩

/-! ## The persisted schema produced by `create_tables` -/

/-- Opaque marker for `DEFAULT CURRENT_TIMESTAMP` values (wall-clock time is
outside the model). -/
def tsMarker : Val := Val.strV "CURRENT_TIMESTAMP"

/-- The `users` table as created by `create_tables`. -/
def usersSchema : Table :=
  { cols := ["id", "username", "password_hash", "role", "created_at"]
    notnull := ["username", "password_hash", "role"]
    checks := []
    uniques := ["username"]
    defaults := [("created_at", tsMarker)]
    nextId := 1
    rows := [] }

/-- The `cyber_incidents` table as created by `create_tables`. -/
def cyberIncidentsSchema : Table :=
  { cols := ["id", "title", "description", "severity", "status", "category",
             "assigned_to", "date_reported", "date_resolved", "resolution_time_hours"]
    notnull := ["title"]
    checks := [("severity", ["Low", "Medium", "High", "Critical"]),
               ("status", ["Open", "In Progress", "Resolved", "Closed"])]
    uniques := []
    defaults := [("date_reported", tsMarker)]
    nextId := 1
    rows := [] }

/-- The `datasets_metadata` table as created by `create_tables`. -/
def datasetsSchema : Table :=
  { cols := ["id", "name", "description", "source_department", "file_size_mb",
             "row_count", "column_count", "data_quality_score", "upload_date",
             "last_accessed", "is_archived"]
    notnull := ["name"]
    checks := []
    uniques := []
    defaults := [("upload_date", tsMarker), ("is_archived", Val.intV 0)]
    nextId := 1
    rows := [] }

/-- The `it_tickets` table as created by `create_tables`. -/
def itTicketsSchema : Table :=
  { cols := ["id", "title", "description", "assignee", "reporter", "status",
             "priority", "category", "date_created", "date_assigned",
             "date_resolved", "resolution_notes"]
    notnull := ["title"]
    checks := [("status", ["New", "Assigned", "In Progress", "Waiting for User", "Resolved", "Closed"]),
               ("priority", ["Low", "Medium", "High", "Urgent"])]
    uniques := []
    defaults := [("date_created", tsMarker)]
    nextId := 1
    rows := [] }

/-- The `user_activity` table as created by `create_tables` (the foreign key
is not involved in any verified claim). -/
def userActivitySchema : Table :=
  { cols := ["id", "user_id", "username", "activity_type", "description", "timestamp"]
    notnull := []
    checks := []
    uniques := []
    defaults := [("timestamp", tsMarker)]
    nextId := 1
    rows := [] }

/-- The empty store right after `create_tables`. -/
def initialDB : DB :=
  [("users", usersSchema),
   ("cyber_incidents", cyberIncidentsSchema),
   ("datasets_metadata", datasetsSchema),
   ("it_tickets", itTicketsSchema),
   ("user_activity", userActivitySchema)]

/-! ## User migration -/

/-- One loop iteration of `DatabaseManager.migrate_users_from_file`
(`database.py`): strip the line; skip blanks and `#` comments; split on commas
and strip each field; with at least three fields, check existence by username
and insert through the generic `insert_record`, counting on success. -/
def migrate_step (st : DB × Nat) (rawLine : String) : DB × Nat :=
  let line := pyStrip rawLine
  if line = "" || pyStartsWithHash line then st
  else
    let parts := (pySplitComma line).map pyStrip
    if parts.length ≥ 3 then
      let username := parts.getD 0 ""
      let password_hash := parts.getD 1 ""
      let role := parts.getD 2 ""
      let existing := (execute_query st.1 ⟨"SELECT id FROM users WHERE username = ?",
          Act.selIdWhereEq "users" "username" (Val.strV username)⟩).2
      if (existing.getD []).isEmpty then
        let r := insert_record st.1 "users"
          [("username", Val.strV username),
           ("password_hash", Val.strV password_hash),
           ("role", Val.strV role)]
        if r.ret then (r.db, st.2 + 1) else (r.db, st.2)
      else st
    else st

/-- `DatabaseManager.migrate_users_from_file` (`database.py`): the input file
is `none` when missing (`FileNotFoundError` path, returning 0), otherwise its
list of lines; returns the store and the migrated count. -/
def migrate_users_from_file (db : DB) (file : Option (List String)) : DB × Nat :=
  match file with
  | none => (db, 0)
  | some lines => lines.foldl migrate_step (db, 0)

/-- State of the `user_service.py` migration loop: the store plus the three
counters the function returns. -/
structure USState where
  db : DB
  success_count : Nat
  error_count : Nat
  total_users : Nat
deriving Repr

/-- One loop iteration of `migrate_users_from_file` in `user_service.py`:
every non-blank line is counted; a line with at least three comma-separated
fields is either skipped as existing (error count), inserted directly through
`execute_query` (success count when it returns `None`), or otherwise counted
as an error; a malformed line only increments the error count. -/
def us_step (st : USState) (rawLine : String) : USState :=
  if pyStrip rawLine = "" then st
  else
    let total := st.total_users + 1
    let clean := pyStrip rawLine
    let parts := pySplitComma clean
    if parts.length ≥ 3 then
      let username := pyStrip (parts.getD 0 "")
      let password_hash := pyStrip (parts.getD 1 "")
      let role := pyStrip (parts.getD 2 "")
      let existing := (execute_query st.db ⟨"SELECT id FROM users WHERE username = ?",
          Act.selIdWhereEq "users" "username" (Val.strV username)⟩).2
      if !(existing.getD []).isEmpty then
        { st with error_count := st.error_count + 1, total_users := total }
      else
        let r := execute_query st.db
          ⟨"INSERT INTO users (username, password_hash, role) VALUES (?, ?, ?)",
           Act.insertInto "users"
             [("username", Val.strV username),
              ("password_hash", Val.strV password_hash),
              ("role", Val.strV role)]⟩
        if r.2.isNone then
          { db := r.1, success_count := st.success_count + 1,
            error_count := st.error_count, total_users := total }
        else
          { db := r.1, success_count := st.success_count,
            error_count := st.error_count + 1, total_users := total }
    else { st with error_count := st.error_count + 1, total_users := total }

/-- `migrate_users_from_file` of `user_service.py`: missing file reports
`(0, 0, 0)`; otherwise every line is processed by `us_step` and the three
counts `(success, errors-or-skips, total lines seen)` are returned with the
store. -/
def user_service_migrate (db : DB) (file : Option (List String)) : USState :=
  match file with
  | none => ⟨db, 0, 0, 0⟩
  | some lines => lines.foldl us_step ⟨db, 0, 0, 0⟩

/-! ## General lemmas about the string model -/

theorem validIdent_false_of_bad (s : String) (c : Char) (hc : c ∈ s.data)
    (h1 : c.isAlphanum = false) (h2 : ¬(c = '_')) : validIdent s = false := by
  unfold validIdent pyIsAlnum
  have hmem : c ∈ s.data.filter (fun c => c ≠ '_') := by
    rw [List.mem_filter]
    exact ⟨hc, by simp [h2]⟩
  have hall : (s.data.filter (fun c => c ≠ '_')).all Char.isAlphanum = false := by
    rw [List.all_eq_false]
    exact ⟨c, hmem, by simp [h1]⟩
  rw [hall, Bool.and_false]

theorem validIdent_false_of_underscores (s : String) (h : ∀ c ∈ s.data, c = '_') :
    validIdent s = false := by
  unfold validIdent pyIsAlnum
  have hnil : s.data.filter (fun c => c ≠ '_') = [] := by
    rw [List.filter_eq_nil_iff]
    intro c hc
    simp [h c hc]
  rw [hnil]
  rfl

theorem lstripL_cons_of_not_ws (c : Char) (l : List Char) (h : pyIsWs c = false) :
    lstripL (c :: l) = c :: l := by
  simp [lstripL, List.dropWhile_cons, h]

theorem rstripL_append_of_not_ws (l : List Char) (c : Char) (h : pyIsWs c = false) :
    rstripL (l ++ [c]) = l ++ [c] := by
  simp [rstripL, List.reverse_append, List.dropWhile_cons, h]

theorem pyStripL_shape (x : Char) (mid : List Char) (d : Char)
    (hx : pyIsWs x = false) (hd : pyIsWs d = false) :
    pyStripL (x :: (mid ++ [d])) = x :: (mid ++ [d]) := by
  unfold pyStripL
  rw [lstripL_cons_of_not_ws x (mid ++ [d]) hx]
  rw [show x :: (mid ++ [d]) = (x :: mid) ++ [d] from rfl]
  exact rstripL_append_of_not_ws (x :: mid) d hd

theorem pySWS_false_of_data (s : String) (x : Char) (mid : List Char) (d : Char)
    (hdata : s.data = x :: (mid ++ [d]))
    (hx : pyIsWs x = false) (hd : pyIsWs d = false)
    (hS : ¬(Char.toUpper x = 'S')) : pyStartswithSelect s = false := by
  unfold pyStartswithSelect
  rw [hdata, pyStripL_shape x mid d hx hd]
  show isPrefixL "SELECT".data (pyUpperL (x :: (mid ++ [d]))) = false
  have hsel : "SELECT".data = 'S' :: ['E', 'L', 'E', 'C', 'T'] := rfl
  rw [hsel]
  simp only [pyUpperL, isPrefixL, List.map_cons, List.map_append]
  simp only [Bool.and_eq_false_iff]
  left
  simp [Ne.symm hS]

theorem pySWS_true_of_data (s : String) (mid : List Char) (d : Char)
    (hdata : s.data = 'S' :: ('E' :: 'L' :: 'E' :: 'C' :: 'T' :: mid ++ [d]))
    (hd : pyIsWs d = false) : pyStartswithSelect s = true := by
  unfold pyStartswithSelect
  rw [hdata]
  rw [show ('S' :: ('E' :: 'L' :: 'E' :: 'C' :: 'T' :: mid ++ [d]))
        = 'S' :: (('E' :: 'L' :: 'E' :: 'C' :: 'T' :: mid) ++ [d]) from rfl]
  rw [pyStripL_shape 'S' ('E' :: 'L' :: 'E' :: 'C' :: 'T' :: mid) d (by decide) hd]
  have hsel : "SELECT".data = ['S', 'E', 'L', 'E', 'C', 'T'] := rfl
  rw [hsel]
  simp [pyUpperL, isPrefixL]

theorem not_ws_of_alnum (c : Char) (h : c.isAlphanum = true) : pyIsWs c = false := by
  cases hcc : pyIsWs c
  · rfl
  · exfalso
    simp [pyIsWs] at hcc
    rcases hcc with ((h1 | h1) | h1) | h1 <;> subst h1 <;> exact absurd h (by decide)

theorem validIdent_chars (t : String) (h : validIdent t = true) :
    ∀ c ∈ t.data, pyIsWs c = false := by
  intro c hc
  by_cases hu : c = '_'
  · subst hu; decide
  · unfold validIdent pyIsAlnum at h
    have hmem : c ∈ t.data.filter (fun c => c ≠ '_') := by
      rw [List.mem_filter]
      exact ⟨hc, by simp [hu]⟩
    have hall := (Bool.and_eq_true_iff.mp h).2
    rw [List.all_eq_true] at hall
    exact not_ws_of_alnum c (by simpa using hall c hmem)

theorem validIdent_ne_nil (t : String) (h : validIdent t = true) : t.data ≠ [] := by
  intro hnil
  unfold validIdent pyIsAlnum at h
  rw [hnil] at h
  simp at h

theorem validIdent_shape (t : String) (h : validIdent t = true) :
    ∃ mid d, t.data = mid ++ [d] ∧ pyIsWs d = false := by
  have hne := validIdent_ne_nil t h
  refine ⟨t.data.dropLast, t.data.getLast hne, ?_, ?_⟩
  · exact (List.dropLast_append_getLast hne).symm
  · exact validIdent_chars t h _ (List.getLast_mem hne)

/-! SQL-text classification: which built queries pass
`strip().upper().startswith('SELECT')`. -/

theorem pySWS_selAll (t : String) (h : validIdent t = true) :
    pyStartswithSelect ("SELECT * FROM " ++ t) = true := by
  obtain ⟨mid, d, hdata, hd⟩ := validIdent_shape t h
  refine pySWS_true_of_data _ (" * FROM ".data ++ mid) d ?_ hd
  rw [String.data_append, hdata]
  rw [show "SELECT * FROM ".data = 'S' :: 'E' :: 'L' :: 'E' :: 'C' :: 'T' :: " * FROM ".data from rfl]
  simp [List.append_assoc]

theorem pySWS_selLimit (t : String) :
    pyStartswithSelect ("SELECT * FROM " ++ t ++ " LIMIT ? OFFSET ?") = true := by
  refine pySWS_true_of_data _ (" * FROM ".data ++ t.data ++ " LIMIT ? OFFSET ".data) '?' ?_ (by decide)
  simp only [String.data_append]
  simp [List.append_assoc]

theorem pySWS_selById (t : String) :
    pyStartswithSelect ("SELECT * FROM " ++ t ++ " WHERE id = ?") = true := by
  refine pySWS_true_of_data _ (" * FROM ".data ++ t.data ++ " WHERE id = ".data) '?' ?_ (by decide)
  simp only [String.data_append]
  simp [List.append_assoc]

theorem pySWS_selLike (t c : String) :
    pyStartswithSelect ("SELECT * FROM " ++ t ++ " WHERE " ++ c ++ " LIKE ?") = true := by
  refine pySWS_true_of_data _
    (" * FROM ".data ++ t.data ++ " WHERE ".data ++ c.data ++ " LIKE ".data) '?' ?_ (by decide)
  simp only [String.data_append]
  simp [List.append_assoc]

theorem pySWS_selOne (t c : String) :
    pyStartswithSelect ("SELECT 1 FROM " ++ t ++ " WHERE " ++ c ++ " = ? LIMIT 1") = true := by
  refine pySWS_true_of_data _
    (" 1 FROM ".data ++ t.data ++ " WHERE ".data ++ c.data ++ " = ? LIMIT ".data) '1' ?_ (by decide)
  simp only [String.data_append]
  simp [List.append_assoc]

theorem pySWS_filterWhere (t0 j ord0 : String) :
    pyStartswithSelect ("SELECT * FROM " ++ t0 ++ " WHERE " ++ j ++ " ORDER BY " ++ ord0 ++ " DESC") = true := by
  refine pySWS_true_of_data _
    (" * FROM ".data ++ t0.data ++ " WHERE ".data ++ j.data ++ " ORDER BY ".data
      ++ ord0.data ++ " DES".data) 'C' ?_ (by decide)
  simp only [String.data_append]
  simp [List.append_assoc]

theorem pySWS_filterPlain (t0 ord0 : String) :
    pyStartswithSelect ("SELECT * FROM " ++ t0 ++ " ORDER BY " ++ ord0 ++ " DESC") = true := by
  refine pySWS_true_of_data _
    (" * FROM ".data ++ t0.data ++ " ORDER BY ".data ++ ord0.data ++ " DES".data) 'C' ?_ (by decide)
  simp only [String.data_append]
  simp [List.append_assoc]

theorem pySWS_insert (t cols ph : String) :
    pyStartswithSelect ("INSERT INTO " ++ t ++ " (" ++ cols ++ ") VALUES (" ++ ph ++ ")") = false := by
  refine pySWS_false_of_data _ 'I'
    ("NSERT INTO ".data ++ t.data ++ " (".data ++ cols.data ++ ") VALUES (".data ++ ph.data) ')'
    ?_ (by decide) (by decide) (by decide)
  simp only [String.data_append]
  simp [List.append_assoc]

theorem pySWS_update (t sc : String) :
    pyStartswithSelect ("UPDATE " ++ t ++ " SET " ++ sc ++ " WHERE id = ?") = false := by
  refine pySWS_false_of_data _ 'U'
    ("PDATE ".data ++ t.data ++ " SET ".data ++ sc.data ++ " WHERE id = ".data) '?'
    ?_ (by decide) (by decide) (by decide)
  simp only [String.data_append]
  simp [List.append_assoc]

theorem pySWS_delete (t : String) :
    pyStartswithSelect ("DELETE FROM " ++ t ++ " WHERE id = ?") = false := by
  refine pySWS_false_of_data _ 'D'
    ("ELETE FROM ".data ++ t.data ++ " WHERE id = ".data) '?'
    ?_ (by decide) (by decide) (by decide)
  simp only [String.data_append]
  simp [List.append_assoc]

theorem pySWS_pragma (t : String) :
    pyStartswithSelect ("PRAGMA table_info(" ++ t ++ ")") = false := by
  refine pySWS_false_of_data _ 'P'
    ("RAGMA table_info(".data ++ t.data) ')'
    ?_ (by decide) (by decide) (by decide)
  simp only [String.data_append]
  simp [List.append_assoc]

/-! ## Claim C3 -/

/-- C3: for every statement and parameter binding, `execute_query` is a total
function (the model of "no exception escapes this primitive"); whenever the
underlying statement raises a store-level error, the in-flight transaction is
rolled back — the returned store is exactly the pre-call store — and the
failure indicator `None` is returned. -/
theorem execute_query_rolls_back_and_returns_failure (db : DB) (q : Query)
    (herr : runAct q.act db = Except.error ()) :
    execute_query db q = (db, none) := by
  unfold execute_query
  rw [herr]

/-- Witness for C3: inserting into a non-existent table is a store error; the
store is returned unchanged with the failure indicator. -/
theorem execute_query_rolls_back_witness :
    execute_query initialDB
      ⟨"INSERT INTO nosuch (x) VALUES (?)", Act.insertInto "nosuch" [("x", Val.strV "v")]⟩
      = (initialDB, none) :=
  execute_query_rolls_back_and_returns_failure initialDB
    ⟨"INSERT INTO nosuch (x) VALUES (?)", Act.insertInto "nosuch" [("x", Val.strV "v")]⟩
    rfl

/-! ## Claim C4 -/

/-- C4 (refuted by the code — code bug): `get_table_columns` returns the
empty list for every store and every table name, never the schema's column
sequence: the `PRAGMA table_info` text does not start with `SELECT`, so
`execute_query` discards the cursor's rows and returns `None`, and the
comprehension guard `if result` then yields `[]`.  The second conjunct shows
the column data was available: the statement itself succeeds and produces the
five `users` columns in order. -/
theorem get_table_columns_always_empty :
    (∀ (db : DB) (t : String), (get_table_columns db t).ret = [])
    ∧ runAct (Act.pragmaInfo "users") initialDB
        = Except.ok (initialDB,
            pragmaRows ["id", "username", "password_hash", "role", "created_at"]) := by
  constructor
  · intro db t
    unfold get_table_columns
    cases hv : validIdent t
    · simp
    · simp only [Bool.not_true, Bool.false_eq_true, if_false]
      unfold execute_query
      cases hr : runAct (Act.pragmaInfo t) db with
      | error e => simp [hr]
      | ok p => simp [hr, pySWS_pragma t]
  · rfl

/-! ## Claim C2 -/

/-- The C2 scenario payload. -/
def c2data : List (String × Val) :=
  [("title", Val.strV "X"), ("severity", Val.strV "Extreme"),
   ("status", Val.strV "Open"), ("category", Val.strV "Y")]

/-- C2 (refuted by the code — code bug): inserting a cyber incident whose
severity lies outside {Low, Medium, High, Critical} leaves the table
unchanged (the statement fails the CHECK constraint and is rolled back,
third conjunct), but the operation reports success: `insert_record` returns
`True`, contradicting both the claim and its own docstring
("True if insertion successful, False otherwise"), because `execute_query`
returns `None` for failed and committed non-SELECT statements alike. -/
theorem insert_bad_severity_true_table_unchanged :
    (insert_record initialDB "cyber_incidents" c2data).ret = true
    ∧ (insert_record initialDB "cyber_incidents" c2data).db = initialDB
    ∧ runAct (Act.insertInto "cyber_incidents" c2data) initialDB = Except.error () := by
  refine ⟨by decide, by decide, rfl⟩

/-! ## Claim C9 -/

/-- C9: `execute_query` returns `None` for every statement whose text does
not start with `SELECT` — whether the statement committed or failed — and
consequently `insert_record`, `update_record` and `delete_record` return the
success indicator `True` for every valid table name (and, for insert/update,
every field mapping non-empty after dropping `None` values), regardless of
whether the underlying statement succeeded. -/
theorem mutation_success_blind_to_store_errors :
    (∀ (db : DB) (q : Query), pyStartswithSelect q.sql = false →
      (execute_query db q).2 = none)
    ∧ (∀ (db : DB) (t : String) (data : List (String × Val)),
        validIdent t = true →
        (data.filter (fun kv => !(kv.2 == Val.nullV))).isEmpty = false →
        (insert_record db t data).ret = true)
    ∧ (∀ (db : DB) (t : String) (i : Int) (data : List (String × Val)),
        validIdent t = true →
        (data.filter (fun kv => !(kv.2 == Val.nullV))).isEmpty = false →
        (update_record db t i data).ret = true)
    ∧ (∀ (db : DB) (t : String) (i : Int),
        validIdent t = true → (delete_record db t i).ret = true) := by
  have hexec : ∀ (db : DB) (q : Query), pyStartswithSelect q.sql = false →
      (execute_query db q).2 = none := by
    intro db q hsql
    unfold execute_query
    cases hr : runAct q.act db with
    | error e => rfl
    | ok p => simp [hsql]
  have hdata_ne : ∀ (data : List (String × Val)),
      (data.filter (fun kv => !(kv.2 == Val.nullV))).isEmpty = false →
      data.isEmpty = false := by
    intro data h
    cases data with
    | nil => exact absurd h (by decide)
    | cons a l => rfl
  refine ⟨hexec, ?_, ?_, ?_⟩
  · intro db t data hv hne
    unfold insert_record
    rw [hdata_ne data hne, hv]
    simp only [Bool.not_true, Bool.false_eq_true, if_false, hne]
    rw [Option.isNone_iff_eq_none]
    exact hexec db _ (pySWS_insert t _ _)
  · intro db t i data hv hne
    unfold update_record
    rw [hdata_ne data hne, hv]
    simp only [Bool.not_true, Bool.false_eq_true, if_false, hne]
    rw [Option.isNone_iff_eq_none]
    exact hexec db _ (pySWS_update t _)
  · intro db t i hv
    unfold delete_record
    rw [hv]
    simp only [Bool.not_true, Bool.false_eq_true, if_false]
    rw [Option.isNone_iff_eq_none]
    exact hexec db _ (pySWS_delete t)

/-- Witness for C9: a committing insert and a failing insert (unknown
column, so the statement errors and is rolled back) both report `True`. -/
theorem mutation_success_blind_witness :
    (insert_record initialDB "users"
      [("username", Val.strV "u"), ("password_hash", Val.strV "h"), ("role", Val.strV "r")]).ret = true
    ∧ (insert_record initialDB "users" [("no_such_column", Val.strV "v")]).ret = true :=
  ⟨mutation_success_blind_to_store_errors.2.1 initialDB "users" _ (by decide) (by decide),
   mutation_success_blind_to_store_errors.2.1 initialDB "users" _ (by decide) (by decide)⟩

/-! ## Claim C1 -/

/-- C1 counterexample: `insert_record` takes caller-supplied column names as
the keys of its field mapping and concatenates them into the SQL text with no
identifier validation.  For the key `"bad;col"` — which contains `';'`, a
character that is not a letter, digit or underscore — the operation does not
return its failure result (it returns `True`) and it hands `cursor.execute` a
SQL text containing the raw input, contradicting the claim for the
column-name inputs of `insert_record`. -/
theorem insert_record_column_key_reaches_sql :
    validIdent "bad;col" = false
    ∧ (insert_record initialDB "users" [("bad;col", Val.strV "v")]).ret = true
    ∧ (insert_record initialDB "users" [("bad;col", Val.strV "v")]).sqls
        = ["INSERT INTO users (bad;col) VALUES (?)"]
    ∧ infixIn "bad;col".data "INSERT INTO users (bad;col) VALUES (?)".data = true := by
  exact ⟨by decide, by decide, by decide, by decide⟩

/-- C1 (amended): for the *validated* identifier positions — the table-name
argument of all nine operations and the column-name arguments of
`search_records` and `record_exists` — any name containing a character other
than a letter, digit or underscore makes the operation return its
failure/empty result and issue no SQL at all (so no SQL containing the raw
input is ever executed).  Column names supplied as `insert_record` /
`update_record` field keys are not validated (see the counterexample). -/
theorem invalid_identifier_rejected_without_sql (db : DB) (name : String) (c : Char)
    (hc : c ∈ name.data) (h1 : c.isAlphanum = false) (h2 : ¬(c = '_')) :
    ((get_all_records db name).ret = [] ∧ (get_all_records db name).sqls = [])
    ∧ (∀ lim off, (get_records_with_limit db name lim off).ret = []
        ∧ (get_records_with_limit db name lim off).sqls = [])
    ∧ (∀ data, (insert_record db name data).ret = false ∧ (insert_record db name data).sqls = [])
    ∧ (∀ i data, (update_record db name i data).ret = false
        ∧ (update_record db name i data).sqls = [])
    ∧ (∀ i, (delete_record db name i).ret = false ∧ (delete_record db name i).sqls = [])
    ∧ (∀ i, (get_record_by_id db name i).ret = none ∧ (get_record_by_id db name i).sqls = [])
    ∧ (∀ col sv, (search_records db name col sv).ret = []
        ∧ (search_records db name col sv).sqls = [])
    ∧ (∀ col v, (record_exists db name col v).ret = false
        ∧ (record_exists db name col v).sqls = [])
    ∧ ((get_table_columns db name).ret = [] ∧ (get_table_columns db name).sqls = [])
    ∧ (∀ t sv, (search_records db t name sv).ret = []
        ∧ (search_records db t name sv).sqls = [])
    ∧ (∀ t v, (record_exists db t name v).ret = false
        ∧ (record_exists db t name v).sqls = []) := by
  have hv : validIdent name = false := validIdent_false_of_bad name c hc h1 h2
  refine ⟨?_, ?_, ?_, ?_, ?_, ?_, ?_, ?_, ?_, ?_, ?_⟩
  · simp [get_all_records, hv]
  · intro lim off; simp [get_records_with_limit, hv]
  · intro data
    cases hd : data.isEmpty <;> simp [insert_record, hv, hd]
  · intro i data
    cases hd : data.isEmpty <;> simp [update_record, hv, hd]
  · intro i; simp [delete_record, hv]
  · intro i; simp [get_record_by_id, hv]
  · intro col sv; simp [search_records, hv]
  · intro col v; simp [record_exists, hv]
  · simp [get_table_columns, hv]
  · intro t sv
    cases hvt : validIdent t <;> simp [search_records, hv, hvt]
  · intro t v
    cases hvt : validIdent t <;> simp [record_exists, hv, hvt]

/-- Witness for the amended C1 at the invalid name `"bad name"` (contains a
space). -/
theorem invalid_identifier_rejected_witness :
    (get_all_records initialDB "bad name").ret = []
    ∧ (get_all_records initialDB "bad name").sqls = []
    ∧ (search_records initialDB "users" "bad name" "x").ret = [] := by
  have h := invalid_identifier_rejected_without_sql initialDB "bad name" ' '
    (by decide) (by decide) (by decide)
  exact ⟨h.1.1, h.1.2, (h.2.2.2.2.2.2.2.2.2.1 "users" "x").1⟩

/-! ## Claim C10 -/

/-- C10: the identifier-validated read operations return, for an invalid
table/column name (one failing the alnum-after-underscore-removal check,
which rejects the empty name and all-underscore names, first conjunct),
exactly the values they return for genuinely absent data: `get_record_by_id`
gives `None`, `get_all_records` and `search_records` give `[]`, and
`record_exists` gives `False` — both when the name is invalid (second
conjunct) and when the name is valid but the table holds no rows (third
conjunct), so the caller cannot tell the two apart from the return value. -/
theorem reads_conflate_invalid_and_absent :
    (∀ s : String, (∀ c ∈ s.data, c = '_') → validIdent s = false)
    ∧ (∀ (db : DB) (name : String) (i : Int) (col sv : String) (v : Val),
        validIdent name = false →
        (get_record_by_id db name i).ret = none
        ∧ (get_all_records db name).ret = []
        ∧ (search_records db name col sv).ret = []
        ∧ (record_exists db name col v).ret = false)
    ∧ (∀ (db : DB) (t : String) (tbl : Table) (i : Int) (col sv : String) (v : Val),
        validIdent t = true → validIdent col = true →
        db.lookup t = some tbl → tbl.rows = [] →
        tbl.cols.contains "id" = true → tbl.cols.contains col = true →
        (get_record_by_id db t i).ret = none
        ∧ (get_all_records db t).ret = []
        ∧ (search_records db t col sv).ret = []
        ∧ (record_exists db t col v).ret = false) := by
  refine ⟨validIdent_false_of_underscores, ?_, ?_⟩
  · intro db name i col sv v hv
    exact ⟨by simp [get_record_by_id, hv], by simp [get_all_records, hv],
           by simp [search_records, hv], by simp [record_exists, hv]⟩
  · intro db t tbl i col sv v hv hvc hlk hrows hid hcol
    have hid2 : "id" ∈ tbl.cols := by simpa using hid
    have hcol2 : col ∈ tbl.cols := by simpa using hcol
    have h1 : runAct (Act.selById t i) db = Except.ok (db, []) := by
      simp [runAct, hlk, hid2, hrows]
    have h2 : runAct (Act.selAll t) db = Except.ok (db, []) := by
      simp [runAct, hlk, hrows]
    have h3 : runAct (Act.selLike t col sv) db = Except.ok (db, []) := by
      simp [runAct, hlk, hcol2, hrows]
    have h4 : runAct (Act.selOneWhereEq t col v) db = Except.ok (db, []) := by
      simp [runAct, hlk, hcol2, hrows]
    refine ⟨?_, ?_, ?_, ?_⟩
    · simp [get_record_by_id, hv, execute_query, h1, pySWS_selById]
    · simp [get_all_records, hv, execute_query, h2, pySWS_selAll t hv]
    · simp [search_records, hv, hvc, execute_query, h3, pySWS_selLike]
    · simp [record_exists, hv, hvc, execute_query, h4, pySWS_selOne]

/-- Witness for C10 at the freshly-created empty `users` table and at the
invalid name `"  "`. -/
theorem reads_conflate_witness :
    (get_record_by_id initialDB "users" 1).ret = none
    ∧ (record_exists initialDB "users" "username" (Val.strV "alice")).ret = false
    ∧ (get_all_records initialDB "no table").ret = [] := by
  have h3 := reads_conflate_invalid_and_absent.2.2 initialDB "users" usersSchema 1
    "username" "alice" (Val.strV "alice") (by decide) (by decide) rfl rfl
    (by decide) (by decide)
  have h2 := reads_conflate_invalid_and_absent.2.1 initialDB "no table" 1
    "c" "s" Val.nullV (by decide)
  exact ⟨h3.1, h3.2.2.2, h2.2.1⟩

/-! ## Claim C7 -/

theorem pySWS_cyberWhere (j : String) :
    pyStartswithSelect ("SELECT * FROM cyber_incidents WHERE " ++ j
      ++ " ORDER BY date_reported DESC") = true := by
  refine pySWS_true_of_data _
    (" * FROM cyber_incidents WHERE ".data ++ j.data ++ " ORDER BY date_reported DES".data)
    'C' ?_ (by decide)
  simp only [String.data_append]
  simp [List.append_assoc]

/-- A store holding one row in `datasets_metadata`, created through the
public insert operation. -/
def dbDataset : DB :=
  (insert_record initialDB "datasets_metadata"
    [("name", Val.strV "D"), ("source_department", Val.strV "S"),
     ("file_size_mb", Val.intV 5)]).db

/-- C7 counterexample: `get_datasets` does not identifier-validate filter
column names.  With the single filter key `"bad name"` (invalid: contains a
space) over a store whose `datasets_metadata` table is non-empty, the claim
predicts the entry is dropped and the remaining (empty) conjunction applied —
i.e. all rows returned — with no SQL containing the raw key; the code instead
interpolates the raw key into the SQL text and the call yields the empty
list. -/
theorem get_datasets_unvalidated_filter :
    validIdent "bad name" = false
    ∧ (get_all_records dbDataset "datasets_metadata").ret ≠ []
    ∧ (get_datasets dbDataset (some [("bad name", Val.strV "D")])).ret = []
    ∧ (get_datasets dbDataset (some [("bad name", Val.strV "D")])).sqls
        = ["SELECT * FROM datasets_metadata WHERE bad name = ? ORDER BY upload_date DESC"]
    ∧ infixIn "bad name".data
        "SELECT * FROM datasets_metadata WHERE bad name = ? ORDER BY upload_date DESC".data
        = true := by
  exact ⟨by decide, by decide, by decide, by decide, by decide⟩

/-- C7 (amended): only the cyber-incidents view validates filter column
names: (1) `get_cyber_incidents` treats any filter mapping exactly as its
identifier-valid sub-mapping (invalid keys are dropped); (2) with the valid
keys actual columns, the call does not fail and returns precisely the rows
satisfying the AND-conjunction of the surviving equality predicates, ordered
by `date_reported` descending; (3) `get_datasets` and `get_it_tickets`
interpolate every filter key into the SQL text unvalidated; and (4) a
`get_datasets` filter naming a non-column makes the whole call return the
empty list instead of dropping the entry. -/
theorem filter_column_validation_cyber_only :
    (∀ (db : DB) (filters : List (String × Val)),
      get_cyber_incidents db (some filters)
        = get_cyber_incidents db (some (filters.filter (fun kv => validIdent kv.1))))
    ∧ (∀ (db : DB) (tbl : Table) (filters : List (String × Val)),
        db.lookup "cyber_incidents" = some tbl →
        ((filters.filter (fun kv => validIdent kv.1)).all
          (fun kv => tbl.cols.contains kv.1)) = true →
        tbl.cols.contains "date_reported" = true →
        (get_cyber_incidents db (some filters)).ret
          = sortDesc (fun r => (rowVal tbl.cols r "date_reported").getD Val.nullV)
              (tbl.rows.filter (fun r =>
                (filters.filter (fun kv => validIdent kv.1)).all
                  (fun kv => rowVal tbl.cols r kv.1 == some kv.2))))
    ∧ (∀ (db : DB) (filters : List (String × Val)), filters.isEmpty = false →
        (get_datasets db (some filters)).sqls
          = ["SELECT * FROM datasets_metadata" ++ " WHERE "
              ++ joinAnd (filters.map (fun kv => kv.1 ++ " = ?")) ++ " ORDER BY upload_date DESC"]
        ∧ (get_it_tickets db (some filters)).sqls
          = ["SELECT * FROM it_tickets" ++ " WHERE "
              ++ joinAnd (filters.map (fun kv => kv.1 ++ " = ?")) ++ " ORDER BY date_created DESC"])
    ∧ (∀ (db : DB) (tbl : Table) (filters : List (String × Val)) (k : String),
        db.lookup "datasets_metadata" = some tbl →
        k ∈ filters.map (fun kv => kv.1) →
        tbl.cols.contains k = false →
        (get_datasets db (some filters)).ret = []) := by
  refine ⟨?_, ?_, ?_, ?_⟩
  · intro db filters
    unfold get_cyber_incidents
    simp only [Option.getD_some, List.filter_filter, Bool.and_self]
  · intro db tbl filters hlk hall hord
    have hord2 : "date_reported" ∈ tbl.cols := by simpa using hord
    have hall2 : ∀ (x : String) (y : Val), (x, y) ∈ filters → validIdent x = true →
        x ∈ tbl.cols := by
      intro x y hmem hvx
      have hfm : (x, y) ∈ filters.filter (fun kv => validIdent kv.1) :=
        List.mem_filter.mpr ⟨hmem, by simpa using hvx⟩
      have := List.all_eq_true.mp hall ⟨x, y⟩ hfm
      simpa using this
    unfold get_cyber_incidents
    simp only [Option.getD_some]
    have hrun : runAct (Act.selFilter "cyber_incidents"
        (filters.filter (fun kv => validIdent kv.1)) "date_reported") db
        = Except.ok (db, sortDesc (fun r => (rowVal tbl.cols r "date_reported").getD Val.nullV)
            (tbl.rows.filter (fun r =>
              (filters.filter (fun kv => validIdent kv.1)).all
                (fun kv => rowVal tbl.cols r kv.1 == some kv.2)))) := by
      simp [runAct, hlk, hord2]
      exact hall2
    cases hvfe : (filters.filter (fun kv => validIdent kv.1)).isEmpty
    · simp only [hvfe, Bool.false_eq_true, if_false]
      unfold execute_query
      rw [hrun]
      simp [pySWS_cyberWhere]
    · simp only [hvfe, if_true]
      unfold execute_query
      rw [hrun]
      simp [show pyStartswithSelect
          ("SELECT * FROM cyber_incidents" ++ " ORDER BY date_reported DESC") = true from by decide,
        show pyStartswithSelect
          "SELECT * FROM cyber_incidents ORDER BY date_reported DESC" = true from by decide]
  · intro db filters hne
    constructor
    · simp [get_datasets, hne]
    · simp [get_it_tickets, hne]
  · intro db tbl filters k hlk hk hcont
    have hne : filters.isEmpty = false := by
      cases filters with
      | nil => simp at hk
      | cons a l => rfl
    obtain ⟨kv, hkv, hkeq⟩ := List.mem_map.mp hk
    have hnotmem : ¬(kv.1 ∈ tbl.cols) := by
      rw [hkeq]
      simpa using hcont
    have hrun : runAct (Act.selFilter "datasets_metadata" filters "upload_date") db
        = Except.error () := by
      simp only [runAct, hlk]
      rw [if_neg]
      intro hcond
      rw [Bool.and_eq_true] at hcond
      have := List.all_eq_true.mp hcond.1 kv hkv
      exact hnotmem (by simpa using this)
    unfold get_datasets
    simp only [Option.getD_some, hne, Bool.false_eq_true, if_false]
    unfold execute_query
    rw [hrun]
    rfl

/-- Witness for the amended C7: a concrete invalid key is dropped by the
cyber view (which still returns the matching open incident), the datasets
view's SQL interpolates its key, and a non-column datasets filter empties the
call. -/
theorem filter_column_validation_witness :
    (get_cyber_incidents initialDB (some [("bad name", Val.strV "x")])
      = get_cyber_incidents initialDB
          (some ([("bad name", Val.strV "x")].filter (fun kv => validIdent kv.1))))
    ∧ (get_cyber_incidents initialDB (some [("status", Val.strV "Open")])).ret
        = sortDesc (fun r => (rowVal cyberIncidentsSchema.cols r "date_reported").getD Val.nullV)
            (cyberIncidentsSchema.rows.filter (fun r =>
              ([("status", Val.strV "Open")].filter (fun kv => validIdent kv.1)).all
                (fun kv => rowVal cyberIncidentsSchema.cols r kv.1 == some kv.2)))
    ∧ (get_datasets initialDB (some [("status", Val.strV "Open")])).sqls
        = ["SELECT * FROM datasets_metadata" ++ " WHERE "
            ++ joinAnd ([("status", Val.strV "Open")].map (fun kv => kv.1 ++ " = ?"))
            ++ " ORDER BY upload_date DESC"]
    ∧ (get_datasets initialDB (some [("bad name", Val.strV "x")])).ret = [] := by
  refine ⟨filter_column_validation_cyber_only.1 initialDB _, ?_, ?_, ?_⟩
  · exact filter_column_validation_cyber_only.2.1 initialDB cyberIncidentsSchema
      [("status", Val.strV "Open")] rfl (by decide) (by decide)
  · exact (filter_column_validation_cyber_only.2.2.1 initialDB
      [("status", Val.strV "Open")] (by decide)).1
  · exact filter_column_validation_cyber_only.2.2.2 initialDB datasetsSchema
      [("bad name", Val.strV "x")] "bad name" rfl (by decide) (by decide)

/-! ## Claim C8 -/

theorem replaceTable_lookup_self (db : DB) (t : String) (tbl tbl2 : Table)
    (h : db.lookup t = some tbl) : (replaceTable db t tbl2).lookup t = some tbl2 := by
  induction db with
  | nil => simp [List.lookup] at h
  | cons p l ih =>
    obtain ⟨k, v⟩ := p
    by_cases hp : k = t
    · subst hp
      show List.lookup k ((if k = k then (k, tbl2) else (k, v)) :: replaceTable l k tbl2)
        = some tbl2
      rw [if_pos rfl, List.lookup]
      simp
    · have hne : (t == k) = false := by simp [Ne.symm hp]
      rw [List.lookup] at h
      simp only [hne] at h
      show List.lookup t ((if k = t then (t, tbl2) else (k, v)) :: replaceTable l t tbl2)
        = some tbl2
      rw [if_neg hp, List.lookup]
      simp only [hne]
      exact ih h

theorem replaceTable_lookup_other (db : DB) (t t2 : String) (tbl2 : Table)
    (h : ¬(t2 = t)) : (replaceTable db t tbl2).lookup t2 = db.lookup t2 := by
  induction db with
  | nil => rfl
  | cons p l ih =>
    by_cases hp : p.1 = t
    · have hne : (t2 == p.1) = false := by
        subst hp
        simp [h]
      have hne2 : (t2 == t) = false := by simp [h]
      simp only [replaceTable, List.map_cons, if_pos hp]
      rw [List.lookup, List.lookup]
      simp only [hne, hne2]
      exact ih
    · simp only [replaceTable, List.map_cons, if_neg hp]
      rw [List.lookup, List.lookup]
      cases ht2 : (t2 == p.1)
      · exact ih
      · rfl

theorem rowVal_applyFields (fields : List (String × Val)) (cols : List String)
    (row : List Val) (c : String) :
    rowVal cols (applyFields fields cols row) c
      = (rowVal cols row c).map (fun old => (fields.lookup c).getD old) := by
  induction cols generalizing row with
  | nil => simp [rowVal, applyFields]
  | cons c0 cs ih =>
    cases row with
    | nil => simp [rowVal, applyFields]
    | cons v vs =>
      by_cases hc : c0 = c
      · subst hc
        simp only [applyFields, rowVal, if_pos rfl, Option.map_some]
        cases hl : fields.lookup c0 <;> simp [hl]
      · simp only [applyFields, rowVal, if_neg hc]
        exact ih vs

theorem lookup_none_of_keys_ne (fields : List (String × Val)) (c : String)
    (h : fields.all (fun kv => !(kv.1 == c)) = true) : fields.lookup c = none := by
  induction fields with
  | nil => rfl
  | cons kv l ih =>
    simp only [List.all_cons, Bool.and_eq_true, Bool.not_eq_true'] at h
    have hne : (c == kv.1) = false := by
      cases hkc : (c == kv.1)
      · rfl
      · exfalso
        have : c = kv.1 := by simpa using hkc
        rw [this] at h
        simp at h
    rw [List.lookup]
    simp only [hne]
    exact ih h.2

theorem step_preserves_id (cols : List String) (fields : List (String × Val)) (r : List Val)
    (hnotid : fields.all (fun kv => !(kv.1 == "id")) = true) :
    rowVal cols (applyFields fields cols r) "id" = rowVal cols r "id" := by
  rw [rowVal_applyFields, lookup_none_of_keys_ne fields "id" hnotid]
  cases rowVal cols r "id" <;> rfl

theorem filtered_update (cols : List String) (fields : List (String × Val)) (i : Int)
    (rows : List (List Val))
    (hnotid : fields.all (fun kv => !(kv.1 == "id")) = true) :
    (rows.map (fun r =>
        if rowVal cols r "id" == some (Val.intV i) then applyFields fields cols r else r)).filter
        (fun r => rowVal cols r "id" == some (Val.intV i))
      = (rows.filter (fun r => rowVal cols r "id" == some (Val.intV i))).map
          (fun r => applyFields fields cols r) := by
  induction rows with
  | nil => rfl
  | cons r l ih =>
    cases hp : (rowVal cols r "id" == some (Val.intV i)) with
    | true =>
      have hp2 : (rowVal cols (applyFields fields cols r) "id" == some (Val.intV i)) = true := by
        rw [step_preserves_id cols fields r hnotid]
        exact hp
      simp only [List.map_cons, List.filter_cons, hp, hp2, eq_self_iff_true, if_true]
      rw [ih]
    | false =>
      have hp2 : (rowVal cols (applyFields fields cols r) "id" == some (Val.intV i)) = false := by
        rw [step_preserves_id cols fields r hnotid]
        exact hp
      simp only [List.map_cons, List.filter_cons, hp, hp2, Bool.false_eq_true, if_false]
      exact ih

theorem head_of_map (f : List Val → List Val) (l : List (List Val)) :
    (l.map f).head? = l.head?.map f := by
  cases l <;> rfl

/-- C8: when `update_record` addresses an existing table with a field mapping
whose surviving (non-`None`) assignments name real non-`id` columns and the
`UPDATE` statement commits, then: the operation reports success; the new
store replaces exactly the addressed table, rewriting precisely the rows
whose `id` equals the given key (every other row, and every other table, is
unchanged); a following `get_record_by_id` returns the previously-first
matching row with exactly the assigned fields updated; and on any row the
rewritten value of a column is the assigned one when the mapping names it and
the prior value otherwise. -/
theorem update_then_get_reflects (db : DB) (t : String) (i : Int)
    (data data2 : List (String × Val)) (tbl : Table)
    (hv : validIdent t = true)
    (hd2 : data.filter (fun kv => !(kv.2 == Val.nullV)) = data2)
    (hne : data2.isEmpty = false)
    (hlk : db.lookup t = some tbl)
    (hid : tbl.cols.contains "id" = true)
    (hkeys : data2.all (fun kv => tbl.cols.contains kv.1) = true)
    (hnotid : data2.all (fun kv => !(kv.1 == "id")) = true)
    (hok : tableOkRows tbl (tbl.rows.map (fun r =>
        if rowVal tbl.cols r "id" == some (Val.intV i)
        then applyFields data2 tbl.cols r else r)) = true) :
    (update_record db t i data).ret = true
    ∧ (update_record db t i data).db
        = replaceTable db t { tbl with rows := tbl.rows.map (fun r =>
            if rowVal tbl.cols r "id" == some (Val.intV i)
            then applyFields data2 tbl.cols r else r) }
    ∧ (∀ t2, ¬(t2 = t) →
        ((update_record db t i data).db).lookup t2 = db.lookup t2)
    ∧ (get_record_by_id (update_record db t i data).db t i).ret
        = ((tbl.rows.filter (fun r =>
            rowVal tbl.cols r "id" == some (Val.intV i))).head?).map
            (fun r => applyFields data2 tbl.cols r)
    ∧ (∀ (r : List Val) (c : String),
        rowVal tbl.cols (applyFields data2 tbl.cols r) c
          = (rowVal tbl.cols r c).map (fun old => (data2.lookup c).getD old)) := by
  have hdne : data.isEmpty = false := by
    cases data with
    | nil => rw [List.filter_nil] at hd2; rw [← hd2] at hne; exact absurd hne (by decide)
    | cons a l => rfl
  have hid2 : "id" ∈ tbl.cols := by simpa using hid
  have hkeys2 : ∀ (x : String) (y : Val), (x, y) ∈ data2 → x ∈ tbl.cols := by
    intro x y hmem
    have := List.all_eq_true.mp hkeys ⟨x, y⟩ hmem
    simpa using this
  have hcond1 : ((data2.all fun kv => tbl.cols.contains kv.1)
      && tbl.cols.contains "id") = true := by
    rw [Bool.and_eq_true]
    exact ⟨hkeys, hid⟩
  have hrun : runAct (Act.updateSet t data2 i) db
      = Except.ok (replaceTable db t { tbl with rows := tbl.rows.map (fun r =>
          if rowVal tbl.cols r "id" == some (Val.intV i)
          then applyFields data2 tbl.cols r else r) }, []) := by
    simp only [runAct, hlk]
    rw [if_pos hcond1, if_pos hok]
  have hupd : update_record db t i data
      = ⟨replaceTable db t { tbl with rows := tbl.rows.map (fun r =>
            if rowVal tbl.cols r "id" == some (Val.intV i)
            then applyFields data2 tbl.cols r else r) }, true,
         ["UPDATE " ++ t ++ " SET "
            ++ joinComma (data2.map (fun kv => kv.1 ++ " = ?")) ++ " WHERE id = ?"]⟩ := by
    unfold update_record
    rw [hdne, hv]
    simp only [Bool.not_true, Bool.false_eq_true, if_false]
    rw [hd2]
    simp only [hne, Bool.false_eq_true, if_false]
    unfold execute_query
    rw [hrun, pySWS_update]
    rfl
  have hlk2 : ((update_record db t i data).db).lookup t
      = some { tbl with rows := tbl.rows.map (fun r =>
          if rowVal tbl.cols r "id" == some (Val.intV i)
          then applyFields data2 tbl.cols r else r) } := by
    rw [hupd]
    exact replaceTable_lookup_self db t tbl _ hlk
  refine ⟨by rw [hupd], by rw [hupd], ?_, ?_, ?_⟩
  · intro t2 ht2
    rw [hupd]
    exact replaceTable_lookup_other db t t2 _ ht2
  · have hrun2 : runAct (Act.selById t i) ((update_record db t i data).db)
        = Except.ok ((update_record db t i data).db,
            (tbl.rows.filter (fun r =>
              rowVal tbl.cols r "id" == some (Val.intV i))).map
              (fun r => applyFields data2 tbl.cols r)) := by
      simp only [runAct, hlk2]
      rw [if_pos (by simpa using hid2)]
      rw [filtered_update tbl.cols data2 i tbl.rows hnotid]
    unfold get_record_by_id
    rw [hv]
    simp only [Bool.not_true, Bool.false_eq_true, if_false]
    unfold execute_query
    rw [hrun2, pySWS_selById]
    simp [head_of_map]
  · intro r c
    exact rowVal_applyFields data2 tbl.cols r c

/-- The `users` table after one migrated user. -/
def aliceTbl : Table :=
  { usersSchema with
    nextId := 2
    rows := [[Val.intV 1, Val.strV "alice", Val.strV "h", Val.strV "analyst", tsMarker]] }

/-- A store holding that one user, produced through the public insert. -/
def dbAlice : DB :=
  (insert_record initialDB "users"
    [("username", Val.strV "alice"), ("password_hash", Val.strV "h"),
     ("role", Val.strV "analyst")]).db

/-- Witness for C8: updating alice's role reports success and the read-back
reflects the update. -/
theorem update_then_get_witness :
    (update_record dbAlice "users" 1 [("role", Val.strV "admin")]).ret = true
    ∧ (get_record_by_id (update_record dbAlice "users" 1
        [("role", Val.strV "admin")]).db "users" 1).ret
      = ((aliceTbl.rows.filter (fun r =>
          rowVal aliceTbl.cols r "id" == some (Val.intV 1))).head?).map
          (fun r => applyFields [("role", Val.strV "admin")] aliceTbl.cols r) := by
  have h := update_then_get_reflects dbAlice "users" 1
    [("role", Val.strV "admin")] [("role", Val.strV "admin")] aliceTbl
    (by decide) (by decide) (by decide) (by decide) (by decide) (by decide)
    (by decide) (by decide)
  exact ⟨h.1, h.2.2.2.1⟩

/-! ## Claim C6 -/

theorem us_step_shift (db : DB) (s e t : Nat) (line : String) :
    us_step ⟨db, s, e, t⟩ line
      = ⟨(us_step ⟨db, 0, 0, 0⟩ line).db,
         s + (us_step ⟨db, 0, 0, 0⟩ line).success_count,
         e + (us_step ⟨db, 0, 0, 0⟩ line).error_count,
         t + (us_step ⟨db, 0, 0, 0⟩ line).total_users⟩ := by
  unfold us_step
  dsimp only
  split_ifs <;> rfl

theorem us_foldl_shift (lines : List String) (db : DB) (s e t : Nat) :
    lines.foldl us_step ⟨db, s, e, t⟩
      = ⟨(lines.foldl us_step ⟨db, 0, 0, 0⟩).db,
         s + (lines.foldl us_step ⟨db, 0, 0, 0⟩).success_count,
         e + (lines.foldl us_step ⟨db, 0, 0, 0⟩).error_count,
         t + (lines.foldl us_step ⟨db, 0, 0, 0⟩).total_users⟩ := by
  induction lines generalizing db s e t with
  | nil => simp
  | cons line rest ih =>
    rw [List.foldl_cons, List.foldl_cons, us_step_shift]
    rw [ih ((us_step ⟨db, 0, 0, 0⟩ line).db)
          (s + (us_step ⟨db, 0, 0, 0⟩ line).success_count)
          (e + (us_step ⟨db, 0, 0, 0⟩ line).error_count)
          (t + (us_step ⟨db, 0, 0, 0⟩ line).total_users)]
    rw [ih ((us_step ⟨db, 0, 0, 0⟩ line).db)
          (us_step ⟨db, 0, 0, 0⟩ line).success_count
          (us_step ⟨db, 0, 0, 0⟩ line).error_count
          (us_step ⟨db, 0, 0, 0⟩ line).total_users]
    simp [Nat.add_assoc]

theorem us_step_blank (db : DB) (s e t : Nat) (line : String)
    (h : pyStrip line = "") : us_step ⟨db, s, e, t⟩ line = ⟨db, s, e, t⟩ := by
  unfold us_step
  rw [if_pos h]

theorem us_step_seen (db : DB) (line : String) (h : ¬(pyStrip line = "")) :
    (us_step ⟨db, 0, 0, 0⟩ line).total_users = 1
    ∧ (us_step ⟨db, 0, 0, 0⟩ line).success_count
        + (us_step ⟨db, 0, 0, 0⟩ line).error_count = 1 := by
  unfold us_step
  dsimp only
  split_ifs <;> exact ⟨rfl, rfl⟩

theorem us_step_malformed (db : DB) (s e t : Nat) (line : String)
    (h : ¬(pyStrip line = "")) (hlen : (pySplitComma (pyStrip line)).length < 3) :
    us_step ⟨db, s, e, t⟩ line = ⟨db, s, e + 1, t + 1⟩ := by
  unfold us_step
  rw [if_neg h]
  dsimp only
  rw [if_neg (by omega)]

/-- C6: `migrate_users_from_file` of `user_service.py` returns the three
counts (migrated, skipped-or-errored, total-lines-seen): a missing input file
yields the zero counts without an exception (first conjunct); across any run
the total counts exactly the non-blank lines and every seen line lands in
exactly one of the other two counters (second conjunct); and a malformed line
(fewer than three comma-separated fields) is counted as one error and skipped
— the surrounding run proceeds exactly as if the line were absent, with the
error and total counts one higher (third conjunct). -/
theorem migrate_service_three_counts :
    (∀ db : DB, user_service_migrate db none = ⟨db, 0, 0, 0⟩)
    ∧ (∀ (db : DB) (lines : List String),
        (user_service_migrate db (some lines)).total_users
          = (lines.filter (fun l => ¬(pyStrip l = ""))).length
        ∧ (user_service_migrate db (some lines)).success_count
            + (user_service_migrate db (some lines)).error_count
          = (user_service_migrate db (some lines)).total_users)
    ∧ (∀ (db : DB) (pre suff : List String) (bad : String),
        ¬(pyStrip bad = "") →
        (pySplitComma (pyStrip bad)).length < 3 →
        user_service_migrate db (some (pre ++ bad :: suff))
          = ⟨(user_service_migrate db (some (pre ++ suff))).db,
             (user_service_migrate db (some (pre ++ suff))).success_count,
             (user_service_migrate db (some (pre ++ suff))).error_count + 1,
             (user_service_migrate db (some (pre ++ suff))).total_users + 1⟩) := by
  refine ⟨fun db => rfl, ?_, ?_⟩
  · intro db lines
    induction lines generalizing db with
    | nil => exact ⟨rfl, rfl⟩
    | cons line rest ih =>
      by_cases hb : pyStrip line = ""
      · have hf : (line :: rest).filter (fun l => ¬(pyStrip l = ""))
            = rest.filter (fun l => ¬(pyStrip l = "")) := by
          simp [List.filter_cons, hb]
        have hfold : user_service_migrate db (some (line :: rest))
            = user_service_migrate db (some rest) := by
          show List.foldl us_step ⟨db, 0, 0, 0⟩ (line :: rest)
            = List.foldl us_step ⟨db, 0, 0, 0⟩ rest
          rw [List.foldl_cons, us_step_blank db 0 0 0 line hb]
        rw [hfold, hf]
        exact ih db
      · have hf : (line :: rest).filter (fun l => ¬(pyStrip l = ""))
            = line :: rest.filter (fun l => ¬(pyStrip l = "")) := by
          simp [List.filter_cons, hb]
        obtain ⟨ht1, hse1⟩ := us_step_seen db line hb
        have hr := ih ((us_step ⟨db, 0, 0, 0⟩ line).db)
        have hr1 : (List.foldl us_step ⟨(us_step ⟨db, 0, 0, 0⟩ line).db, 0, 0, 0⟩
            rest).total_users
            = (rest.filter (fun l => ¬(pyStrip l = ""))).length := hr.1
        have hr2 : (List.foldl us_step ⟨(us_step ⟨db, 0, 0, 0⟩ line).db, 0, 0, 0⟩
              rest).success_count
            + (List.foldl us_step ⟨(us_step ⟨db, 0, 0, 0⟩ line).db, 0, 0, 0⟩
              rest).error_count
            = (List.foldl us_step ⟨(us_step ⟨db, 0, 0, 0⟩ line).db, 0, 0, 0⟩
              rest).total_users := hr.2
        have hfold : user_service_migrate db (some (line :: rest))
            = List.foldl us_step ⟨(us_step ⟨db, 0, 0, 0⟩ line).db,
                (us_step ⟨db, 0, 0, 0⟩ line).success_count,
                (us_step ⟨db, 0, 0, 0⟩ line).error_count,
                (us_step ⟨db, 0, 0, 0⟩ line).total_users⟩ rest := rfl
        rw [hfold, us_foldl_shift, hf]
        dsimp only
        rw [List.length_cons]
        constructor
        · rw [ht1, hr1]
          omega
        · omega
  · intro db pre suff bad hb hlen
    have key : ∀ (st : USState),
        List.foldl us_step st (bad :: suff)
          = ⟨(List.foldl us_step st suff).db,
             (List.foldl us_step st suff).success_count,
             (List.foldl us_step st suff).error_count + 1,
             (List.foldl us_step st suff).total_users + 1⟩ := by
      intro st
      obtain ⟨d0, s0, e0, t0⟩ := st
      rw [List.foldl_cons, us_step_malformed d0 s0 e0 t0 bad hb hlen]
      rw [us_foldl_shift suff d0 s0 (e0 + 1) (t0 + 1), us_foldl_shift suff d0 s0 e0 t0]
      dsimp only
      simp only [USState.mk.injEq]
      refine ⟨trivial, trivial, by omega, by omega⟩
    show List.foldl us_step ⟨db, 0, 0, 0⟩ (pre ++ bad :: suff) = _
    rw [List.foldl_append, key]
    rw [show user_service_migrate db (some (pre ++ suff))
          = List.foldl us_step ⟨db, 0, 0, 0⟩ (pre ++ suff) from rfl]
    rw [List.foldl_append]

/-- Witness for C6: one malformed line among two valid ones adds exactly one
error and one seen line. -/
theorem migrate_service_three_counts_witness :
    user_service_migrate initialDB (some ["a,h,r", "bad", "b,h,r"])
      = ⟨(user_service_migrate initialDB (some ["a,h,r", "b,h,r"])).db,
         (user_service_migrate initialDB (some ["a,h,r", "b,h,r"])).success_count,
         (user_service_migrate initialDB (some ["a,h,r", "b,h,r"])).error_count + 1,
         (user_service_migrate initialDB (some ["a,h,r", "b,h,r"])).total_users + 1⟩ :=
  migrate_service_three_counts.2.2 initialDB ["a,h,r"] ["b,h,r"] "bad"
    (by decide) (by decide)

/-! ## Claim C5 -/

/-- The well-formedness the migration relies on: the store has a `users`
table with the schema `create_tables` declares, all rows satisfying its
constraints and usernames pairwise distinct. -/
def usersWellFormed (db : DB) : Bool :=
  match db.lookup "users" with
  | some tbl =>
      tbl.cols == usersSchema.cols
      && tbl.notnull == usersSchema.notnull
      && tbl.checks == usersSchema.checks
      && tbl.uniques == usersSchema.uniques
      && tbl.defaults == usersSchema.defaults
      && tbl.rows.all (rowOk tbl)
      && uniquesOk tbl tbl.rows
  | none => false

/-- The existence probe the migration runs before inserting, exactly as
`migrate_step` computes it: `bool(execute_query("SELECT id FROM users WHERE
username = ?", (u,)))`. -/
def userHas (db : DB) (u : String) : Bool :=
  !(((execute_query db ⟨"SELECT id FROM users WHERE username = ?",
      Act.selIdWhereEq "users" "username" (Val.strV u)⟩).2.getD []).isEmpty)

/-- The username a migration line would act on, when it is a processed
(non-blank, non-comment, at-least-three-field) line. -/
def lineUser (line : String) : Option String :=
  let l := pyStrip line
  if l = "" || pyStartsWithHash l then none
  else
    let parts := (pySplitComma l).map pyStrip
    if parts.length ≥ 3 then some (parts.getD 0 "") else none

theorem contains_snoc (l : List Val) (v a : Val) :
    (l ++ [v]).contains a = (l.contains a || a == v) := by
  induction l with
  | nil =>
    show List.contains [v] a = (List.contains [] a || a == v)
    simp only [List.contains_cons, List.contains_nil, Bool.or_false, Bool.false_or]
  | cons b rest ih =>
    simp only [List.cons_append, List.contains_cons, ih, Bool.or_assoc]

theorem valBeq_comm (a v : Val) : (a == v) = (v == a) := by
  rcases Decidable.em (a = v) with he | he
  · subst he
    rfl
  · have h1 : (a == v) = false := by simp [he]
    have h2 : (v == a) = false := by simp [Ne.symm he]
    rw [h1, h2]

theorem distinctVals_snoc (l : List Val) (v : Val) :
    distinctVals (l ++ [v]) = (distinctVals l && !(l.contains v)) := by
  induction l with
  | nil => simp [distinctVals]
  | cons a rest ih =>
    simp only [List.cons_append, distinctVals, List.append_eq, ih, contains_snoc,
      List.contains_cons]
    rw [valBeq_comm v a]
    generalize rest.contains a = x
    generalize (a == v) = y
    generalize rest.contains v = z
    generalize distinctVals rest = w
    cases x <;> cases y <;> cases z <;> cases w <;> rfl

theorem usersWellFormed_spec (db : DB) (h : usersWellFormed db = true) :
    ∃ tbl, db.lookup "users" = some tbl
      ∧ tbl.cols = usersSchema.cols
      ∧ tbl.notnull = usersSchema.notnull
      ∧ tbl.checks = usersSchema.checks
      ∧ tbl.uniques = usersSchema.uniques
      ∧ tbl.defaults = usersSchema.defaults
      ∧ tbl.rows.all (rowOk tbl) = true
      ∧ uniquesOk tbl tbl.rows = true := by
  unfold usersWellFormed at h
  cases hlk : db.lookup "users" with
  | none =>
    rw [hlk] at h
    exact absurd h (by decide)
  | some tbl =>
    rw [hlk] at h
    simp only [Bool.and_eq_true, beq_iff_eq] at h
    exact ⟨tbl, rfl, h.1.1.1.1.1.1, h.1.1.1.1.1.2, h.1.1.1.1.2, h.1.1.1.2, h.1.1.2,
      h.1.2, h.2⟩

theorem isEmpty_of_map (f : List Val → List Val) (l : List (List Val)) :
    (l.map f).isEmpty = l.isEmpty := by
  cases l <;> rfl

theorem not_isEmpty_filter_eq_any (p : List Val → Bool) (l : List (List Val)) :
    (!(l.filter p).isEmpty) = l.any p := by
  induction l with
  | nil => rfl
  | cons r rest ih => cases hp : p r <;> simp [List.filter_cons, hp, ih]

theorem colVals_append (cols : List String) (rows1 rows2 : List (List Val)) (c : String) :
    colVals cols (rows1 ++ rows2) c = colVals cols rows1 c ++ colVals cols rows2 c := by
  unfold colVals
  rw [List.filterMap_append]

theorem userHas_spec (db : DB) (tbl : Table) (u : String)
    (hlk : db.lookup "users" = some tbl) (hcols : tbl.cols = usersSchema.cols) :
    userHas db u
      = tbl.rows.any (fun row => rowVal tbl.cols row "username" == some (Val.strV u)) := by
  unfold userHas
  have hrun : runAct (Act.selIdWhereEq "users" "username" (Val.strV u)) db
      = Except.ok (db, (tbl.rows.filter
          (fun row => rowVal tbl.cols row "username" == some (Val.strV u))).map
          (fun r => [(rowVal tbl.cols r "id").getD Val.nullV])) := by
    simp only [runAct, hlk]
    rw [if_pos]
    rw [hcols]
    decide
  unfold execute_query
  rw [hrun]
  rw [show pyStartswithSelect "SELECT id FROM users WHERE username = ?" = true from by decide]
  show (!((some _).getD []).isEmpty) = _
  rw [Option.getD_some, isEmpty_of_map, not_isEmpty_filter_eq_any]

theorem insert_user_step_all (db : DB) (tbl : Table) (u p r0 : String)
    (hlk : db.lookup "users" = some tbl)
    (hcols : tbl.cols = usersSchema.cols)
    (hnn : tbl.notnull = usersSchema.notnull)
    (hck : tbl.checks = usersSchema.checks)
    (huq : tbl.uniques = usersSchema.uniques)
    (hdf : tbl.defaults = usersSchema.defaults)
    (hrows : tbl.rows.all (rowOk tbl) = true)
    (hdup : uniquesOk tbl tbl.rows = true)
    (hno : tbl.rows.any
      (fun row => rowVal tbl.cols row "username" == some (Val.strV u)) = false) :
    runAct (Act.insertInto "users"
      [("username", Val.strV u), ("password_hash", Val.strV p), ("role", Val.strV r0)]) db
    = Except.ok (replaceTable db "users"
        { tbl with
          nextId := tbl.nextId + 1
          rows := tbl.rows
            ++ [[Val.intV tbl.nextId, Val.strV u, Val.strV p, Val.strV r0, tsMarker]] },
        [])
    ∧ usersWellFormed (replaceTable db "users"
        { tbl with
          nextId := tbl.nextId + 1
          rows := tbl.rows
            ++ [[Val.intV tbl.nextId, Val.strV u, Val.strV p, Val.strV r0, tsMarker]] }) = true
    ∧ userHas (replaceTable db "users"
        { tbl with
          nextId := tbl.nextId + 1
          rows := tbl.rows
            ++ [[Val.intV tbl.nextId, Val.strV u, Val.strV p, Val.strV r0, tsMarker]] }) u = true
    ∧ (∀ u0, userHas db u0 = true →
        userHas (replaceTable db "users"
          { tbl with
            nextId := tbl.nextId + 1
            rows := tbl.rows
              ++ [[Val.intV tbl.nextId, Val.strV u, Val.strV p, Val.strV r0, tsMarker]] })
          u0 = true) := by
  have hbr : buildRow tbl
      [("username", Val.strV u), ("password_hash", Val.strV p), ("role", Val.strV r0)]
      = [Val.intV tbl.nextId, Val.strV u, Val.strV p, Val.strV r0, tsMarker] := by
    unfold buildRow
    simp only [hcols, hdf]
    rfl
  have hnewOk : rowOk tbl
      [Val.intV tbl.nextId, Val.strV u, Val.strV p, Val.strV r0, tsMarker] = true := by
    unfold rowOk
    simp only [hcols, hnn, hck]
    rfl
  have hcontains : ∀ row ∈ tbl.rows,
      (rowVal tbl.cols row "username" == some (Val.strV u)) = false := by
    intro row hrow
    cases hx : (rowVal tbl.cols row "username" == some (Val.strV u))
    · rfl
    · exfalso
      rw [List.any_eq_false] at hno
      exact hno row hrow (by simpa using hx)
  have hcv : (colVals tbl.cols tbl.rows "username").contains (Val.strV u) = false := by
    cases hc : (colVals tbl.cols tbl.rows "username").contains (Val.strV u)
    · rfl
    · exfalso
      have hmem : Val.strV u ∈ colVals tbl.cols tbl.rows "username" := by
        simpa using hc
      obtain ⟨row, hrow, hf⟩ := List.mem_filterMap.mp hmem
      cases hv : rowVal tbl.cols row "username" with
      | none =>
        rw [hv] at hf
        simp at hf
      | some w =>
        rw [hv] at hf
        cases w with
        | nullV => simp at hf
        | intV n => simp at hf
        | strV s =>
          have hs : s = u := by simpa using hf
          subst hs
          have hcr := hcontains row hrow
          rw [hv] at hcr
          simp at hcr
  have hnewVal : colVals tbl.cols
      [[Val.intV tbl.nextId, Val.strV u, Val.strV p, Val.strV r0, tsMarker]] "username"
      = [Val.strV u] := by
    unfold colVals
    simp only [hcols]
    rfl
  have huql : tbl.uniques = ["username"] := by
    rw [huq]
    rfl
  have huniq : uniquesOk tbl (tbl.rows
      ++ [[Val.intV tbl.nextId, Val.strV u, Val.strV p, Val.strV r0, tsMarker]]) = true := by
    unfold uniquesOk
    rw [huql]
    simp only [List.all_cons, List.all_nil, Bool.and_true]
    rw [colVals_append, hnewVal, distinctVals_snoc]
    have hd : distinctVals (colVals tbl.cols tbl.rows "username") = true := by
      have hq := hdup
      unfold uniquesOk at hq
      rw [huql] at hq
      simpa using hq
    rw [hd, hcv]
    rfl
  have hallrows : ((tbl.rows
      ++ [[Val.intV tbl.nextId, Val.strV u, Val.strV p, Val.strV r0, tsMarker]]).all
      (rowOk tbl)) = true := by
    rw [List.all_append, hrows]
    simp [hnewOk]
  have hfields : ([("username", Val.strV u), ("password_hash", Val.strV p),
      ("role", Val.strV r0)].all (fun kv => tbl.cols.contains kv.1)) = true := by
    simp only [hcols]
    rfl
  have hlk2 := replaceTable_lookup_self db "users" tbl
    { tbl with
      nextId := tbl.nextId + 1
      rows := tbl.rows
        ++ [[Val.intV tbl.nextId, Val.strV u, Val.strV p, Val.strV r0, tsMarker]] } hlk
  have hnewname : rowVal tbl.cols
      [Val.intV tbl.nextId, Val.strV u, Val.strV p, Val.strV r0, tsMarker] "username"
      = some (Val.strV u) := by
    rw [hcols]
    rfl
  refine ⟨?_, ?_, ?_, ?_⟩
  · simp only [runAct, hlk]
    rw [if_pos hfields, hbr]
    rw [if_pos (by
      unfold tableOkRows
      rw [hallrows, huniq]
      rfl)]
  · unfold usersWellFormed
    rw [hlk2]
    show (((((((tbl.cols == usersSchema.cols) && (tbl.notnull == usersSchema.notnull))
      && (tbl.checks == usersSchema.checks)) && (tbl.uniques == usersSchema.uniques))
      && (tbl.defaults == usersSchema.defaults))
      && ((tbl.rows ++ [[Val.intV tbl.nextId, Val.strV u, Val.strV p, Val.strV r0,
            tsMarker]]).all (rowOk { tbl with
              nextId := tbl.nextId + 1
              rows := tbl.rows ++ [[Val.intV tbl.nextId, Val.strV u, Val.strV p,
                Val.strV r0, tsMarker]] })))
      && uniquesOk { tbl with
            nextId := tbl.nextId + 1
            rows := tbl.rows ++ [[Val.intV tbl.nextId, Val.strV u, Val.strV p,
              Val.strV r0, tsMarker]] }
          (tbl.rows ++ [[Val.intV tbl.nextId, Val.strV u, Val.strV p, Val.strV r0,
            tsMarker]])) = true
    have e1 : (tbl.cols == usersSchema.cols) = true := by simp [hcols]
    have e2 : (tbl.notnull == usersSchema.notnull) = true := by simp [hnn]
    have e3 : (tbl.checks == usersSchema.checks) = true := by simp [hck]
    have e4 : (tbl.uniques == usersSchema.uniques) = true := by simp [huq]
    have e5 : (tbl.defaults == usersSchema.defaults) = true := by simp [hdf]
    rw [e1, e2, e3, e4, e5]
    rw [show (rowOk { tbl with
          nextId := tbl.nextId + 1
          rows := tbl.rows ++ [[Val.intV tbl.nextId, Val.strV u, Val.strV p,
            Val.strV r0, tsMarker]] }) = rowOk tbl from rfl]
    rw [hallrows]
    rw [show uniquesOk { tbl with
          nextId := tbl.nextId + 1
          rows := tbl.rows ++ [[Val.intV tbl.nextId, Val.strV u, Val.strV p,
            Val.strV r0, tsMarker]] }
        (tbl.rows ++ [[Val.intV tbl.nextId, Val.strV u, Val.strV p, Val.strV r0,
          tsMarker]])
      = uniquesOk tbl (tbl.rows ++ [[Val.intV tbl.nextId, Val.strV u, Val.strV p,
          Val.strV r0, tsMarker]]) from rfl]
    rw [huniq]
    rfl
  · rw [userHas_spec _ _ _ hlk2 hcols]
    show ((tbl.rows ++ [[Val.intV tbl.nextId, Val.strV u, Val.strV p, Val.strV r0,
        tsMarker]]).any
      (fun row => rowVal tbl.cols row "username" == some (Val.strV u))) = true
    rw [List.any_append]
    have : ([[Val.intV tbl.nextId, Val.strV u, Val.strV p, Val.strV r0, tsMarker]].any
        (fun row => rowVal tbl.cols row "username" == some (Val.strV u))) = true := by
      simp [hnewname]
    rw [this, Bool.or_true]
  · intro u0 hh
    rw [userHas_spec db tbl u0 hlk hcols] at hh
    rw [userHas_spec _ _ u0 hlk2 hcols]
    show ((tbl.rows ++ [[Val.intV tbl.nextId, Val.strV u, Val.strV p, Val.strV r0,
        tsMarker]]).any
      (fun row => rowVal tbl.cols row "username" == some (Val.strV u0))) = true
    rw [List.any_append, hh, Bool.true_or]

theorem isEmpty_of_not_userHas (db : DB) (u : String) (h : userHas db u = false) :
    (((execute_query db ⟨"SELECT id FROM users WHERE username = ?",
      Act.selIdWhereEq "users" "username" (Val.strV u)⟩).2.getD []).isEmpty) = true := by
  unfold userHas at h
  cases he : (((execute_query db ⟨"SELECT id FROM users WHERE username = ?",
      Act.selIdWhereEq "users" "username" (Val.strV u)⟩).2.getD []).isEmpty)
  · rw [he] at h
    exact absurd h (by decide)
  · rfl

theorem isEmpty_of_userHas (db : DB) (u : String) (h : userHas db u = true) :
    (((execute_query db ⟨"SELECT id FROM users WHERE username = ?",
      Act.selIdWhereEq "users" "username" (Val.strV u)⟩).2.getD []).isEmpty) = false := by
  unfold userHas at h
  cases he : (((execute_query db ⟨"SELECT id FROM users WHERE username = ?",
      Act.selIdWhereEq "users" "username" (Val.strV u)⟩).2.getD []).isEmpty)
  · rfl
  · rw [he] at h
    exact absurd h (by decide)

theorem migrate_step_none (db : DB) (n : Nat) (line : String)
    (h : lineUser line = none) : migrate_step (db, n) line = (db, n) := by
  unfold migrate_step
  unfold lineUser at h
  dsimp only at h ⊢
  by_cases hb : ((pyStrip line = "") || pyStartsWithHash (pyStrip line)) = true
  · rw [if_pos hb]
  · rw [if_neg hb] at h ⊢
    by_cases hp : (((pySplitComma (pyStrip line)).map pyStrip).length ≥ 3)
    · rw [if_pos hp] at h
      exact absurd h (by simp)
    · rw [if_neg hp]

theorem migrate_step_skip (db : DB) (n : Nat) (line u : String)
    (h : lineUser line = some u) (hhas : userHas db u = true) :
    migrate_step (db, n) line = (db, n) := by
  unfold migrate_step
  unfold lineUser at h
  dsimp only at h ⊢
  by_cases hb : ((pyStrip line = "") || pyStartsWithHash (pyStrip line)) = true
  · rw [if_pos hb]
  · rw [if_neg hb] at h ⊢
    by_cases hp : (((pySplitComma (pyStrip line)).map pyStrip).length ≥ 3)
    · rw [if_pos hp] at h ⊢
      have hu : ((pySplitComma (pyStrip line)).map pyStrip).getD 0 "" = u := by
        simpa using h
      rw [hu]
      rw [if_neg (by
        rw [isEmpty_of_userHas db u hhas]
        decide)]
    · rw [if_neg hp] at h
      exact absurd h (by simp)

theorem insert_record_users_eval (db : DB) (tbl : Table) (u p r0 : String)
    (hlk : db.lookup "users" = some tbl)
    (hcols : tbl.cols = usersSchema.cols)
    (hnn : tbl.notnull = usersSchema.notnull)
    (hck : tbl.checks = usersSchema.checks)
    (huq : tbl.uniques = usersSchema.uniques)
    (hdf : tbl.defaults = usersSchema.defaults)
    (hrows : tbl.rows.all (rowOk tbl) = true)
    (hdup : uniquesOk tbl tbl.rows = true)
    (hno : tbl.rows.any
      (fun row => rowVal tbl.cols row "username" == some (Val.strV u)) = false) :
    insert_record db "users"
      [("username", Val.strV u), ("password_hash", Val.strV p), ("role", Val.strV r0)]
      = ⟨replaceTable db "users"
          { tbl with
            nextId := tbl.nextId + 1
            rows := tbl.rows
              ++ [[Val.intV tbl.nextId, Val.strV u, Val.strV p, Val.strV r0, tsMarker]] },
         true,
         ["INSERT INTO users (username, password_hash, role) VALUES (?, ?, ?)"]⟩ := by
  obtain ⟨hrun, -, -, -⟩ := insert_user_step_all db tbl u p r0 hlk hcols hnn hck
    huq hdf hrows hdup hno
  have h0 : insert_record db "users"
      [("username", Val.strV u), ("password_hash", Val.strV p), ("role", Val.strV r0)]
      = ⟨(execute_query db
            ⟨"INSERT INTO users (username, password_hash, role) VALUES (?, ?, ?)",
             Act.insertInto "users" [("username", Val.strV u), ("password_hash", Val.strV p),
               ("role", Val.strV r0)]⟩).1,
         ((execute_query db
            ⟨"INSERT INTO users (username, password_hash, role) VALUES (?, ?, ?)",
             Act.insertInto "users" [("username", Val.strV u), ("password_hash", Val.strV p),
               ("role", Val.strV r0)]⟩).2).isNone,
         ["INSERT INTO users (username, password_hash, role) VALUES (?, ?, ?)"]⟩ := rfl
  rw [h0]
  unfold execute_query
  rw [hrun]
  rw [show pyStartswithSelect
    "INSERT INTO users (username, password_hash, role) VALUES (?, ?, ?)" = false
    from by decide]
  rfl

theorem migrate_step_facts (db : DB) (n : Nat) (line : String)
    (hwf : usersWellFormed db = true) :
    usersWellFormed (migrate_step (db, n) line).1 = true
    ∧ (∀ u0, userHas db u0 = true → userHas (migrate_step (db, n) line).1 u0 = true)
    ∧ (∀ u, lineUser line = some u → userHas (migrate_step (db, n) line).1 u = true) := by
  cases hl : lineUser line with
  | none =>
    rw [migrate_step_none db n line hl]
    refine ⟨hwf, fun u0 h => h, ?_⟩
    intro u hu
    cases hu
  | some u =>
    cases hhas : userHas db u with
    | true =>
      rw [migrate_step_skip db n line u hl hhas]
      refine ⟨hwf, fun u0 h => h, ?_⟩
      intro u2 h2
      injection h2 with he
      rw [← he]
      exact hhas
    | false =>
      obtain ⟨tbl, hlk, hcols, hnn, hck, huq, hdf, hrows, hdup⟩ := usersWellFormed_spec db hwf
      have hnoany : tbl.rows.any
          (fun row => rowVal tbl.cols row "username" == some (Val.strV u)) = false := by
        rw [userHas_spec db tbl u hlk hcols] at hhas
        exact hhas
      obtain ⟨hrun, hwf2, hhas2, hmono2⟩ := insert_user_step_all db tbl u
        (((pySplitComma (pyStrip line)).map pyStrip).getD 1 "")
        (((pySplitComma (pyStrip line)).map pyStrip).getD 2 "")
        hlk hcols hnn hck huq hdf hrows hdup hnoany
      have hstep : migrate_step (db, n) line
          = (replaceTable db "users"
              { tbl with
                nextId := tbl.nextId + 1
                rows := tbl.rows ++ [[Val.intV tbl.nextId, Val.strV u,
                  Val.strV (((pySplitComma (pyStrip line)).map pyStrip).getD 1 ""),
                  Val.strV (((pySplitComma (pyStrip line)).map pyStrip).getD 2 ""),
                  tsMarker]] },
             n + 1) := by
        unfold migrate_step
        unfold lineUser at hl
        dsimp only at hl ⊢
        by_cases hb : ((pyStrip line = "") || pyStartsWithHash (pyStrip line)) = true
        · rw [if_pos hb] at hl
          cases hl
        · rw [if_neg hb] at hl ⊢
          by_cases hp : (((pySplitComma (pyStrip line)).map pyStrip).length ≥ 3)
          · rw [if_pos hp] at hl ⊢
            have hu : ((pySplitComma (pyStrip line)).map pyStrip).getD 0 "" = u := by
              simpa using hl
            rw [hu]
            rw [if_pos (isEmpty_of_not_userHas db u hhas)]
            rw [insert_record_users_eval db tbl u
              (((pySplitComma (pyStrip line)).map pyStrip).getD 1 "")
              (((pySplitComma (pyStrip line)).map pyStrip).getD 2 "")
              hlk hcols hnn hck huq hdf hrows hdup hnoany]
            rfl
          · rw [if_neg hp] at hl
            exact absurd hl (by simp)
      rw [hstep]
      exact ⟨hwf2, hmono2, fun u2 h2 => by
        injection h2 with he
        rw [← he]
        exact hhas2⟩

theorem migrate_run_facts (lines : List String) (db : DB) (n : Nat)
    (hwf : usersWellFormed db = true) :
    usersWellFormed (lines.foldl migrate_step (db, n)).1 = true
    ∧ (∀ u0, userHas db u0 = true →
        userHas (lines.foldl migrate_step (db, n)).1 u0 = true)
    ∧ (∀ line ∈ lines, ∀ u, lineUser line = some u →
        userHas (lines.foldl migrate_step (db, n)).1 u = true) := by
  induction lines generalizing db n with
  | nil =>
    refine ⟨hwf, fun u0 h => h, ?_⟩
    intro line hmem
    cases hmem
  | cons line rest ih =>
    obtain ⟨hw1, hm1, ha1⟩ := migrate_step_facts db n line hwf
    obtain ⟨hw2, hm2, ha2⟩ := ih (migrate_step (db, n) line).1 (migrate_step (db, n) line).2 hw1
    rw [List.foldl_cons]
    refine ⟨hw2, fun u0 h => hm2 u0 (hm1 u0 h), ?_⟩
    intro l hmem u hu
    rcases List.mem_cons.mp hmem with he | hm
    · rw [he] at hu
      exact hm2 u (ha1 u hu)
    · exact ha2 l hm u hu

theorem migrate_run_skip (lines : List String) (db : DB)
    (hall : ∀ line ∈ lines, ∀ u, lineUser line = some u → userHas db u = true) :
    ∀ n, lines.foldl migrate_step (db, n) = (db, n) := by
  induction lines with
  | nil => intro n; rfl
  | cons line rest ih =>
    intro n
    rw [List.foldl_cons]
    have hstep : migrate_step (db, n) line = (db, n) := by
      cases hl : lineUser line with
      | none => exact migrate_step_none db n line hl
      | some u => exact migrate_step_skip db n line u hl (hall line (by simp) u hl)
    rw [hstep]
    exact ih (fun l hm u hu => hall l (by simp [hm]) u hu) n

/-- A migration input line the contract accepts: blank, comment, or at least
three comma-separated fields. -/
def wellFormedLine (line : String) : Bool :=
  (pyStrip line = "") || pyStartsWithHash (pyStrip line)
    || (((pySplitComma (pyStrip line)).map pyStrip).length ≥ 3)

/-- C5: migration is idempotent.  Starting from any store whose `users` table
has the created schema, constraint-satisfying rows and distinct usernames,
running `migrate_users_from_file` twice on the same well-formed file raises
nothing (the embedding is total), the second run migrates zero users and
leaves the store — hence the `users` row count — exactly as the first run
left it, and the store after the first run is still well-formed (in
particular, usernames stay pairwise distinct: no duplicate users are
created). -/
theorem migration_idempotent (db : DB) (lines : List String)
    (hwf : usersWellFormed db = true)
    (hfile : lines.all wellFormedLine = true) :
    (migrate_users_from_file
        (migrate_users_from_file db (some lines)).1 (some lines)).2 = 0
    ∧ (migrate_users_from_file
        (migrate_users_from_file db (some lines)).1 (some lines)).1
      = (migrate_users_from_file db (some lines)).1
    ∧ usersWellFormed (migrate_users_from_file db (some lines)).1 = true := by
  obtain ⟨hw1, hm1, ha1⟩ := migrate_run_facts lines db 0 hwf
  have hrun2 := migrate_run_skip lines (lines.foldl migrate_step (db, 0)).1
    (fun l hm u hu => ha1 l hm u hu) 0
  refine ⟨?_, ?_, hw1⟩
  · show (lines.foldl migrate_step ((lines.foldl migrate_step (db, 0)).1, 0)).2 = 0
    rw [hrun2]
  · show (lines.foldl migrate_step ((lines.foldl migrate_step (db, 0)).1, 0)).1
      = (lines.foldl migrate_step (db, 0)).1
    rw [hrun2]

/-- Witness for C5 on a concrete two-user file over the freshly-created
store. -/
theorem migration_idempotent_witness :
    (migrate_users_from_file
        (migrate_users_from_file initialDB (some ["alice,h1,analyst", "bob,h2,admin"])).1
        (some ["alice,h1,analyst", "bob,h2,admin"])).2 = 0
    ∧ (migrate_users_from_file
        (migrate_users_from_file initialDB (some ["alice,h1,analyst", "bob,h2,admin"])).1
        (some ["alice,h1,analyst", "bob,h2,admin"])).1
      = (migrate_users_from_file initialDB (some ["alice,h1,analyst", "bob,h2,admin"])).1 := by
  have h := migration_idempotent initialDB ["alice,h1,analyst", "bob,h2,admin"]
    (by decide) (by decide)
  exact ⟨h.1, h.2.1⟩

end IntelPlatform
